import Mathlib

/-!
A shallow embedding of the power-safe flash data logger of the
stratosonde firmware (`src/Core/Src/flash_log.c` together with its
block-device driver `src/Core/Src/w25q16jv.c`), with theorems checking
the natural-language specification against it.

Machine integers are modelled as `Nat` (or `Int` for signed fields)
with explicit reductions modulo `2^32` where the C code can overflow.
Flash memory is a byte map `Nat → Nat`; every read masks with `% 256`
since the SPI bus delivers bytes.
-/

namespace Stratosonde

/-! ## Constants (from `w25q16jv.h` and `flash_log.h` / `flash_log.c`) -/

def W25Q_FLASH_SIZE : Nat := 2 * 1024 * 1024
def W25Q_PAGE_SIZE : Nat := 256
def W25Q_SECTOR_SIZE : Nat := 4 * 1024
def W25Q_SECTOR_COUNT : Nat := W25Q_FLASH_SIZE / W25Q_SECTOR_SIZE

def FLASH_LOG_RECORD_MAGIC : Nat := 0xFEEDDA7A
def FLASH_LOG_HEADER_MAGIC : Nat := 0xF1A5DEAD
def FLASH_LOG_HEADER_VERSION : Nat := 1
def FLASH_LOG_RECORD_SIZE : Nat := 64
def FLASH_LOG_DATA_START : Nat := W25Q_SECTOR_SIZE
def FLASH_LOG_DATA_END : Nat := W25Q_FLASH_SIZE
def FLASH_LOG_MAX_RECORDS : Nat :=
  (FLASH_LOG_DATA_END - FLASH_LOG_DATA_START) / FLASH_LOG_RECORD_SIZE

def HEADER_A_ADDR : Nat := 0x0000
def HEADER_B_ADDR : Nat := 0x0100
def HEADER_UPDATE_INTERVAL : Nat := 10

def CRC32_POLYNOMIAL : Nat := 0xEDB88320

/-- Modulus of the C `uint32_t` arithmetic. -/
def U32 : Nat := 2 ^ 32

/-! ## CRC32 (`FlashLog_InitCRC32Table` / `FlashLog_CRC32`) -/

/-- One inner-loop iteration of `FlashLog_InitCRC32Table`:
`if (crc & 1) crc = (crc >> 1) ^ POLY; else crc >>= 1;`. -/
def crcRound (c : Nat) : Nat :=
  if c &&& 1 = 1 then (c >>> 1) ^^^ CRC32_POLYNOMIAL else c >>> 1

/-- One entry of the lookup table: the byte value run through the
8-iteration inner loop of `FlashLog_InitCRC32Table`. -/
def crcEntry (i : Nat) : Nat := crcRound^[8] i

/-- The table `crc32_table` computed by `FlashLog_InitCRC32Table`. -/
def crc32_table : List Nat := (List.range 256).map crcEntry

/-- The per-byte update of `FlashLog_CRC32`:
`crc = (crc >> 8) ^ crc32_table[(crc ^ data[i]) & 0xFF];`. -/
def crcStep (crc b : Nat) : Nat :=
  (crc >>> 8) ^^^ crc32_table.getD ((crc ^^^ b) &&& 0xFF) 0

/-- `FlashLog_CRC32` over a byte list (seed `0xFFFFFFFF`, final
complement, which on `uint32_t` is xor with `0xFFFFFFFF`). -/
def FlashLog_CRC32 (data : List Nat) : Nat :=
  (data.foldl crcStep 0xFFFFFFFF) ^^^ 0xFFFFFFFF

/-- Modelled from the spec: the reference bitwise CRC-32/ISO-HDLC
algorithm — per byte, xor the byte into the crc and run 8 conditional
shift/xor rounds with the reflected polynomial `0xEDB88320`; seed
`0xFFFFFFFF`; final one's-complement.  This definition follows the
spec's words for the refinement claim C6 and is compared against the
table-driven `FlashLog_CRC32` taken from the source. -/
def crc32_bitwise (data : List Nat) : Nat :=
  (data.foldl (fun crc b => crcRound^[8] (crc ^^^ b)) 0xFFFFFFFF) ^^^ 0xFFFFFFFF

/-! ## Little-endian byte codec

The C structs are `__attribute__((packed))` with little-endian
multi-byte fields; serialization lays each field out byte by byte. -/

def enc8 (n : Nat) : List Nat := [n % 256]

def enc16 (n : Nat) : List Nat := [n % 256, n / 256 % 256]

def enc32 (n : Nat) : List Nat :=
  [n % 256, n / 256 % 256, n / 65536 % 256, n / 16777216 % 256]

/-- Decode a little-endian `uint32` from bytes `f k .. f (k+3)`. -/
def dec32 (f : Nat → Nat) (k : Nat) : Nat :=
  f k + 256 * f (k + 1) + 65536 * f (k + 2) + 16777216 * f (k + 3)

/-- Decode a little-endian `uint16` from bytes `f k, f (k+1)`. -/
def dec16 (f : Nat → Nat) (k : Nat) : Nat := f k + 256 * f (k + 1)

/-- Two's-complement bit pattern of an `int32_t` value. -/
def int32bits (i : Int) : Nat := (i % (2 ^ 32 : Int)).toNat

/-- Two's-complement bit pattern of an `int16_t` value. -/
def int16bits (i : Int) : Nat := (i % (2 ^ 16 : Int)).toNat

/-! ## Record codec (`FlashLog_Record_t`) -/

/-- `FlashLog_Record_t` (64 packed bytes).  The three `float` fields
and the signed fields are held as their bit patterns, since
`FlashLog_WriteRecord` only ever copies them bitwise. -/
structure FlashLog_Record where
  magic : Nat
  sequence : Nat
  timestamp : Nat
  pressure : Nat
  temperature : Nat
  humidity : Nat
  latitude : Nat
  longitude : Nat
  altitude_gps : Nat
  altitude_bar : Nat
  satellites : Nat
  gnss_fix_quality : Nat
  gnss_hdop_x10 : Nat
  gnss_valid : Nat
  reservedB1 : Nat
  reservedB2 : Nat
  battery_mv : Nat
  flags : Nat
  reservedB3 : Nat
  reservedTail : List Nat
  crc32 : Nat
deriving DecidableEq

/-- The first 60 bytes of the packed record
(`sizeof(FlashLog_Record_t) - sizeof(uint32_t)`), i.e. everything the
record CRC is computed over, laid out byte by byte (little-endian, at
the offsets fixed by the packed struct). -/
def serializeRecordBody (r : FlashLog_Record) : List Nat :=
  [r.magic % 256, r.magic / 256 % 256,
     r.magic / 65536 % 256, r.magic / 16777216 % 256,
   r.sequence % 256, r.sequence / 256 % 256,
     r.sequence / 65536 % 256, r.sequence / 16777216 % 256,
   r.timestamp % 256, r.timestamp / 256 % 256,
     r.timestamp / 65536 % 256, r.timestamp / 16777216 % 256,
   r.pressure % 256, r.pressure / 256 % 256,
     r.pressure / 65536 % 256, r.pressure / 16777216 % 256,
   r.temperature % 256, r.temperature / 256 % 256,
     r.temperature / 65536 % 256, r.temperature / 16777216 % 256,
   r.humidity % 256, r.humidity / 256 % 256,
     r.humidity / 65536 % 256, r.humidity / 16777216 % 256,
   r.latitude % 256, r.latitude / 256 % 256,
     r.latitude / 65536 % 256, r.latitude / 16777216 % 256,
   r.longitude % 256, r.longitude / 256 % 256,
     r.longitude / 65536 % 256, r.longitude / 16777216 % 256,
   r.altitude_gps % 256, r.altitude_gps / 256 % 256,
   r.altitude_bar % 256, r.altitude_bar / 256 % 256,
   r.satellites % 256, r.gnss_fix_quality % 256,
   r.gnss_hdop_x10 % 256, r.gnss_valid % 256,
   r.reservedB1 % 256, r.reservedB2 % 256,
   r.battery_mv % 256, r.battery_mv / 256 % 256,
   r.flags % 256, r.reservedB3 % 256] ++
  r.reservedTail.map (· % 256)

/-- The full 64-byte packed record. -/
def serializeRecord (r : FlashLog_Record) : List Nat :=
  serializeRecordBody r ++ enc32 r.crc32

/-- Placeholder record for a read of fewer than 64 bytes (cannot occur
on the paths the engine takes, which always read exactly 64 bytes). -/
def zeroRecord : FlashLog_Record :=
  { magic := 0, sequence := 0, timestamp := 0, pressure := 0
    temperature := 0, humidity := 0, latitude := 0, longitude := 0
    altitude_gps := 0, altitude_bar := 0, satellites := 0
    gnss_fix_quality := 0, gnss_hdop_x10 := 0, gnss_valid := 0
    reservedB1 := 0, reservedB2 := 0, battery_mv := 0, flags := 0
    reservedB3 := 0, reservedTail := [], crc32 := 0 }

/-- Read a packed record back from its 64 raw bytes (the struct fields
are the little-endian views of the byte positions fixed by the packed
layout). -/
def deserializeRecord (bs : List Nat) : FlashLog_Record :=
  match bs with
  | b0 :: b1 :: b2 :: b3 :: b4 :: b5 :: b6 :: b7 :: b8 :: b9 ::
    b10 :: b11 :: b12 :: b13 :: b14 :: b15 :: b16 :: b17 :: b18 :: b19 ::
    b20 :: b21 :: b22 :: b23 :: b24 :: b25 :: b26 :: b27 :: b28 :: b29 ::
    b30 :: b31 :: b32 :: b33 :: b34 :: b35 :: b36 :: b37 :: b38 :: b39 ::
    b40 :: b41 :: b42 :: b43 :: b44 :: b45 :: b46 :: b47 :: b48 :: b49 ::
    b50 :: b51 :: b52 :: b53 :: b54 :: b55 :: b56 :: b57 :: b58 :: b59 ::
    b60 :: b61 :: b62 :: b63 :: _ =>
    { magic := b0 + 256 * b1 + 65536 * b2 + 16777216 * b3
      sequence := b4 + 256 * b5 + 65536 * b6 + 16777216 * b7
      timestamp := b8 + 256 * b9 + 65536 * b10 + 16777216 * b11
      pressure := b12 + 256 * b13 + 65536 * b14 + 16777216 * b15
      temperature := b16 + 256 * b17 + 65536 * b18 + 16777216 * b19
      humidity := b20 + 256 * b21 + 65536 * b22 + 16777216 * b23
      latitude := b24 + 256 * b25 + 65536 * b26 + 16777216 * b27
      longitude := b28 + 256 * b29 + 65536 * b30 + 16777216 * b31
      altitude_gps := b32 + 256 * b33
      altitude_bar := b34 + 256 * b35
      satellites := b36
      gnss_fix_quality := b37
      gnss_hdop_x10 := b38
      gnss_valid := b39
      reservedB1 := b40
      reservedB2 := b41
      battery_mv := b42 + 256 * b43
      flags := b44
      reservedB3 := b45
      reservedTail := [b46, b47, b48, b49, b50, b51, b52, b53, b54, b55,
        b56, b57, b58, b59]
      crc32 := b60 + 256 * b61 + 65536 * b62 + 16777216 * b63 }
  | _ => zeroRecord

/-- Well-formedness: all fields fit the widths of the packed layout. -/
def WFRecord (r : FlashLog_Record) : Prop :=
  r.magic < U32 ∧ r.sequence < U32 ∧ r.timestamp < U32 ∧
  r.pressure < U32 ∧ r.temperature < U32 ∧ r.humidity < U32 ∧
  r.latitude < U32 ∧ r.longitude < U32 ∧
  r.altitude_gps < 65536 ∧ r.altitude_bar < 65536 ∧
  r.satellites < 256 ∧ r.gnss_fix_quality < 256 ∧
  r.gnss_hdop_x10 < 256 ∧ r.gnss_valid < 256 ∧
  r.reservedB1 < 256 ∧ r.reservedB2 < 256 ∧
  r.battery_mv < 65536 ∧ r.flags < 256 ∧ r.reservedB3 < 256 ∧
  r.reservedTail = List.replicate 14 0 ∧ r.crc32 < U32

/-- `FlashLog_VerifyRecord`: magic check plus CRC32 over the first 60
bytes of the packed record. -/
def FlashLog_VerifyRecord (r : FlashLog_Record) : Bool :=
  if r.magic ≠ FLASH_LOG_RECORD_MAGIC then false
  else decide (FlashLog_CRC32 (serializeRecordBody r) = r.crc32)

/-! ## Header codec (`FlashLog_Header_t`) -/

/-- `FlashLog_Header_t` (44 packed bytes: 11 `uint32_t`). -/
structure FlashLog_Header where
  magic : Nat
  version : Nat
  write_addr : Nat
  record_count : Nat
  sequence : Nat
  oldest_addr : Nat
  flags : Nat
  reservedW0 : Nat
  reservedW1 : Nat
  reservedW2 : Nat
  crc32 : Nat
deriving DecidableEq

/-- First 40 bytes of the packed header
(`sizeof(FlashLog_Header_t) - sizeof(uint32_t)`), byte by byte. -/
def serializeHeaderBody (h : FlashLog_Header) : List Nat :=
  [h.magic % 256, h.magic / 256 % 256,
     h.magic / 65536 % 256, h.magic / 16777216 % 256,
   h.version % 256, h.version / 256 % 256,
     h.version / 65536 % 256, h.version / 16777216 % 256,
   h.write_addr % 256, h.write_addr / 256 % 256,
     h.write_addr / 65536 % 256, h.write_addr / 16777216 % 256,
   h.record_count % 256, h.record_count / 256 % 256,
     h.record_count / 65536 % 256, h.record_count / 16777216 % 256,
   h.sequence % 256, h.sequence / 256 % 256,
     h.sequence / 65536 % 256, h.sequence / 16777216 % 256,
   h.oldest_addr % 256, h.oldest_addr / 256 % 256,
     h.oldest_addr / 65536 % 256, h.oldest_addr / 16777216 % 256,
   h.flags % 256, h.flags / 256 % 256,
     h.flags / 65536 % 256, h.flags / 16777216 % 256,
   h.reservedW0 % 256, h.reservedW0 / 256 % 256,
     h.reservedW0 / 65536 % 256, h.reservedW0 / 16777216 % 256,
   h.reservedW1 % 256, h.reservedW1 / 256 % 256,
     h.reservedW1 / 65536 % 256, h.reservedW1 / 16777216 % 256,
   h.reservedW2 % 256, h.reservedW2 / 256 % 256,
     h.reservedW2 / 65536 % 256, h.reservedW2 / 16777216 % 256]

/-- The full 44-byte packed header. -/
def serializeHeader (h : FlashLog_Header) : List Nat :=
  serializeHeaderBody h ++ enc32 h.crc32

/-- Placeholder header for a read of fewer than 44 bytes (cannot occur
on the paths the engine takes, which always read exactly 44 bytes). -/
def zeroHeader : FlashLog_Header :=
  { magic := 0, version := 0, write_addr := 0, record_count := 0
    sequence := 0, oldest_addr := 0, flags := 0, reservedW0 := 0
    reservedW1 := 0, reservedW2 := 0, crc32 := 0 }

/-- Read a packed header back from its 44 raw bytes. -/
def deserializeHeader (bs : List Nat) : FlashLog_Header :=
  match bs with
  | b0 :: b1 :: b2 :: b3 :: b4 :: b5 :: b6 :: b7 :: b8 :: b9 ::
    b10 :: b11 :: b12 :: b13 :: b14 :: b15 :: b16 :: b17 :: b18 :: b19 ::
    b20 :: b21 :: b22 :: b23 :: b24 :: b25 :: b26 :: b27 :: b28 :: b29 ::
    b30 :: b31 :: b32 :: b33 :: b34 :: b35 :: b36 :: b37 :: b38 :: b39 ::
    b40 :: b41 :: b42 :: b43 :: _ =>
    { magic := b0 + 256 * b1 + 65536 * b2 + 16777216 * b3
      version := b4 + 256 * b5 + 65536 * b6 + 16777216 * b7
      write_addr := b8 + 256 * b9 + 65536 * b10 + 16777216 * b11
      record_count := b12 + 256 * b13 + 65536 * b14 + 16777216 * b15
      sequence := b16 + 256 * b17 + 65536 * b18 + 16777216 * b19
      oldest_addr := b20 + 256 * b21 + 65536 * b22 + 16777216 * b23
      flags := b24 + 256 * b25 + 65536 * b26 + 16777216 * b27
      reservedW0 := b28 + 256 * b29 + 65536 * b30 + 16777216 * b31
      reservedW1 := b32 + 256 * b33 + 65536 * b34 + 16777216 * b35
      reservedW2 := b36 + 256 * b37 + 65536 * b38 + 16777216 * b39
      crc32 := b40 + 256 * b41 + 65536 * b42 + 16777216 * b43 }
  | _ => zeroHeader

/-- `FlashLog_ValidateHeader`: magic, version and CRC32 over the first
40 bytes. -/
def FlashLog_ValidateHeader (h : FlashLog_Header) : Bool :=
  if h.magic ≠ FLASH_LOG_HEADER_MAGIC then false
  else if h.version ≠ FLASH_LOG_HEADER_VERSION then false
  else decide (FlashLog_CRC32 (serializeHeaderBody h) = h.crc32)

/-! ## Block device (`w25q16jv.c`)

The device is a byte map plus failure oracles: `readFails`,
`writeFails`, `eraseFails` decide whether the corresponding operation's
SPI transfer / busy-wait fails, and `failWriteMem` / `failEraseMem`
give the (unspecified, partially-programmed) memory contents left
behind by a failed program or erase. -/

inductive W25Q_Status
  | ok
  | error
  | errorInit
  | errorBusy
  | errorParam
  | errorVerify
  | errorSpi
  | errorNotFound
deriving DecidableEq

structure Dev where
  mem : Nat → Nat
  readFails : Nat → Nat → Bool
  writeFails : Nat → Nat → Bool
  eraseFails : Nat → Bool
  failWriteMem : Nat → List Nat → Nat → Nat
  failEraseMem : Nat → Nat → Nat

/-- Point update of a byte map by a block write. -/
def writeBytesMem (mem : Nat → Nat) (addr : Nat) (bs : List Nat) :
    Nat → Nat :=
  fun a => if addr ≤ a ∧ a < addr + bs.length then bs.getD (a - addr) 0 else mem a

/-- Point update of a byte map by a 4KB sector erase (`0xFF` fill). -/
def eraseSectorMem (mem : Nat → Nat) (sector : Nat) : Nat → Nat :=
  fun a => if sector ≤ a ∧ a < sector + W25Q_SECTOR_SIZE then 0xFF else mem a

/-- The byte list delivered by a successful `len`-byte read at `addr`
(SPI delivers bytes, hence the `% 256` view of the byte map). -/
def devReadBytes (d : Dev) (addr len : Nat) : List Nat :=
  (List.range len).map fun i => d.mem (addr + i) % 256

/-- `W25Q_Read` as used by the log engine: parameter checks, then the
SPI transfer, delivering `len` bytes. -/
def W25Q_Read (d : Dev) (addr len : Nat) : W25Q_Status × List Nat :=
  if len = 0 ∨ addr + len > W25Q_FLASH_SIZE then (.errorParam, [])
  else if d.readFails addr len then (.error, [])
  else (.ok, devReadBytes d addr len)

/-- `W25Q_Write` as used by the log engine: parameter checks, then the
page-program loop.  On failure the flash may be left partially
programmed (`failWriteMem`). -/
def W25Q_Write (d : Dev) (addr : Nat) (bs : List Nat) : W25Q_Status × Dev :=
  if bs.length = 0 ∨ addr + bs.length > W25Q_FLASH_SIZE then (.errorParam, d)
  else if d.writeFails addr bs.length then
    (.error, { d with mem := d.failWriteMem addr bs })
  else (.ok, { d with mem := writeBytesMem d.mem addr bs })

/-- `W25Q_EraseSector`: erases the 4KB sector containing `addr`. -/
def W25Q_EraseSector (d : Dev) (addr : Nat) : W25Q_Status × Dev :=
  if addr ≥ W25Q_FLASH_SIZE then (.errorParam, d)
  else if d.eraseFails addr then
    (.error, { d with mem := d.failEraseMem addr })
  else
    (.ok, { d with mem := eraseSectorMem d.mem (addr / W25Q_SECTOR_SIZE * W25Q_SECTOR_SIZE) })

/-- A device whose operations never fail, with the given contents. -/
def mkDev (mem : Nat → Nat) : Dev where
  mem := mem
  readFails := fun _ _ => false
  writeFails := fun _ _ => false
  eraseFails := fun _ => false
  failWriteMem := fun _ _ _ => 0
  failEraseMem := fun _ _ => 0

/-- Blank (fully erased) flash contents. -/
def blankMem : Nat → Nat := fun _ => 0xFF

/-! ### `W25Q_Write` page decomposition (claim C9)

`W25Q_Write` splits `[addr, addr+len)` into page-program chunks; this
function computes the `(addr, len)` pairs passed to `W25Q_PageProgram`
by the loop in `W25Q_Write`.  The fuel argument only drives structural
recursion; `fuel ≥ len` suffices since every iteration consumes at
least one byte. -/
def w25qWriteChunks : Nat → Nat → Nat → List (Nat × Nat)
  | 0, _, _ => []
  | fuel + 1, addr, len =>
    if len = 0 then []
    else
      let page_offset := addr % W25Q_PAGE_SIZE
      let bytes_to_write :=
        if W25Q_PAGE_SIZE - page_offset > len then len
        else W25Q_PAGE_SIZE - page_offset
      (addr, bytes_to_write) ::
        w25qWriteChunks fuel (addr + bytes_to_write) (len - bytes_to_write)

/-- The parameter-check of `W25Q_PageProgram` (with non-null pointers):
`len == 0 || len > W25Q_PAGE_SIZE`, `addr + len > W25Q_FLASH_SIZE`, or
a write that would wrap within the page. -/
def W25Q_PageProgramParamReject (addr len : Nat) : Bool :=
  if len = 0 ∨ len > W25Q_PAGE_SIZE then true
  else if addr + len > W25Q_FLASH_SIZE then true
  else if addr % W25Q_PAGE_SIZE + len > W25Q_PAGE_SIZE then true
  else false

/-! ## Flash log engine (`flash_log.c`) -/

inductive FlashLog_Status
  | ok
  | error
  | errorInit
  | errorFlash
  | errorFull
  | errorEmpty
  | errorCRC
  | errorParam
deriving DecidableEq

/-- The cached engine state of `FlashLog_HandleTypeDef` (the `hw25q`
pointer is passed separately as the `Dev` value). -/
structure FState where
  initialized : Bool
  write_addr : Nat
  oldest_addr : Nat
  record_count : Nat
  next_sequence : Nat
  active_header : Nat
deriving DecidableEq

/-- Flash operations performed by an engine call, in order. -/
inductive Ev
  | read (addr len : Nat)
  | write (addr : Nat) (data : List Nat)
  | erase (addr : Nat)
deriving DecidableEq

/-- The header struct prepared by `FlashLog_WriteHeader` (note
`sequence` is set to the record count). -/
def mkHeader (st : FState) : FlashLog_Header :=
  let body : FlashLog_Header :=
    { magic := FLASH_LOG_HEADER_MAGIC
      version := FLASH_LOG_HEADER_VERSION
      write_addr := st.write_addr
      record_count := st.record_count
      sequence := st.record_count
      oldest_addr := st.oldest_addr
      flags := 0
      reservedW0 := 0
      reservedW1 := 0
      reservedW2 := 0
      crc32 := 0 }
  { body with crc32 := FlashLog_CRC32 (serializeHeaderBody body) }

/-- The ping-pong toggle `(active_header == 0) ? 1 : 0`. -/
def toggleActive (active : Nat) : Nat := if active = 0 then 1 else 0

/-- The flash address of a header slot (`0 -> A`, otherwise `B`). -/
def pingSlotAddr (active : Nat) : Nat :=
  if active = 0 then HEADER_A_ADDR else HEADER_B_ADDR

/-- `FlashLog_WriteHeader`: prepare the header from the cached state,
toggle the ping-pong slot, and write it to the newly active slot.  (The
toggle happens before the flash write and sticks even on failure, as in
the source.) -/
def FlashLog_WriteHeader (st : FState) (d : Dev) :
    FlashLog_Status × FState × Dev × List Ev :=
  match W25Q_Write d (pingSlotAddr (toggleActive st.active_header))
      (serializeHeader (mkHeader st)) with
  | (.ok, d') =>
    (.ok, { st with active_header := toggleActive st.active_header }, d',
     [.write (pingSlotAddr (toggleActive st.active_header))
        (serializeHeader (mkHeader st))])
  | (_, d') =>
    (.errorFlash, { st with active_header := toggleActive st.active_header }, d',
     [.write (pingSlotAddr (toggleActive st.active_header))
        (serializeHeader (mkHeader st))])

/-- `FlashLog_EraseSectorIfNeeded`: erase only when `addr` is exactly
at a sector start (in which case the sector address is `addr` itself). -/
def FlashLog_EraseSectorIfNeeded (d : Dev) (addr : Nat) :
    FlashLog_Status × Dev × List Ev :=
  if addr % W25Q_SECTOR_SIZE = 0 then
    match W25Q_EraseSector d (addr / W25Q_SECTOR_SIZE * W25Q_SECTOR_SIZE) with
    | (.ok, d') => (.ok, d', [.erase (addr / W25Q_SECTOR_SIZE * W25Q_SECTOR_SIZE)])
    | (_, d') => (.errorFlash, d', [.erase (addr / W25Q_SECTOR_SIZE * W25Q_SECTOR_SIZE)])
  else (.ok, d, [])

/-! ### Sensor input (`sensor_t`)

Only the fields `FlashLog_WriteRecord` serializes are modelled.  The
three environment floats are bit patterns copied verbatim; `gnss_hdop`
and `battery_voltage` are scaled and truncated by the engine, modelled
with exact rationals. -/

structure Sensor where
  pressure : Nat
  temperature : Nat
  humidity : Nat
  latitude : Int
  longitude : Int
  altitudeGps : Int
  altitudeBar : Int
  satellites : Nat
  gnss_fix_quality : Nat
  gnss_hdop : Rat
  gnss_valid : Bool
  battery_voltage : Rat
deriving DecidableEq

/-- The record built by `FlashLog_WriteRecord` (after `memset 0`, field
assignment, and CRC computation over the first 60 bytes). -/
def buildRecord (s : Sensor) (seq ts : Nat) : FlashLog_Record :=
  let r : FlashLog_Record :=
    { magic := FLASH_LOG_RECORD_MAGIC
      sequence := seq
      timestamp := ts
      pressure := s.pressure
      temperature := s.temperature
      humidity := s.humidity
      latitude := int32bits s.latitude
      longitude := int32bits s.longitude
      altitude_gps := int16bits s.altitudeGps
      altitude_bar := int16bits s.altitudeBar
      satellites := s.satellites
      gnss_fix_quality := s.gnss_fix_quality
      gnss_hdop_x10 := (s.gnss_hdop * 10).floor.toNat
      gnss_valid := if s.gnss_valid then 1 else 0
      reservedB1 := 0
      reservedB2 := 0
      battery_mv := (s.battery_voltage * 1000).floor.toNat
      flags := 0
      reservedB3 := 0
      reservedTail := List.replicate 14 0
      crc32 := 0 }
  { r with crc32 := FlashLog_CRC32 (serializeRecordBody r) }

/-- A sensor input whose values fit the record layout (the cast of
`gnss_hdop * 10` to `uint8_t` and of `battery_voltage * 1000` to
`uint16_t` is undefined in C outside these ranges). -/
def ValidSensor (s : Sensor) : Prop :=
  s.pressure < U32 ∧ s.temperature < U32 ∧ s.humidity < U32 ∧
  s.satellites < 256 ∧ s.gnss_fix_quality < 256 ∧
  0 ≤ s.gnss_hdop ∧ (s.gnss_hdop * 10).floor < 256 ∧
  0 ≤ s.battery_voltage ∧ (s.battery_voltage * 1000).floor < 65536

/-- The `next_sequence++` post-increment performed while building the
record, before any flash write. -/
def bumpSeq (st : FState) : FState :=
  { st with next_sequence := (st.next_sequence + 1) % U32 }

/-- The state update after a successful record flash write: advance the
cursor by 64 bytes, bump the count, wrap at `DATA_END`, and pull
`oldest_addr` along once the count exceeds the capacity. -/
def advanceState (st : FState) : FState :=
  { st with
    write_addr :=
      if st.write_addr + FLASH_LOG_RECORD_SIZE ≥ FLASH_LOG_DATA_END then
        FLASH_LOG_DATA_START
      else st.write_addr + FLASH_LOG_RECORD_SIZE
    record_count := (st.record_count + 1) % U32
    oldest_addr :=
      if (st.record_count + 1) % U32 > FLASH_LOG_MAX_RECORDS then
        (if st.write_addr + FLASH_LOG_RECORD_SIZE ≥ FLASH_LOG_DATA_END then
          FLASH_LOG_DATA_START
        else st.write_addr + FLASH_LOG_RECORD_SIZE)
      else st.oldest_addr }

/-- `FlashLog_WriteRecord`.  Mirrors the C control flow: param/init
check, lazy sector erase, record build (with the `next_sequence`
post-increment happening before the flash write), record write, cursor
advance with wraparound, `oldest_addr` update, and the periodic header
commit.  Also returns the sequence of flash operations attempted. -/
def FlashLog_WriteRecord (st : FState) (d : Dev) (s : Sensor) (ts : Nat) :
    FlashLog_Status × FState × Dev × List Ev :=
  if ¬ st.initialized then (.errorParam, st, d, [])
  else
    match FlashLog_EraseSectorIfNeeded d st.write_addr with
    | (.ok, d1, evs) =>
      match W25Q_Write d1 st.write_addr
          (serializeRecord (buildRecord s st.next_sequence ts)) with
      | (.ok, d2) =>
        if (advanceState (bumpSeq st)).record_count % HEADER_UPDATE_INTERVAL = 0 then
          match FlashLog_WriteHeader (advanceState (bumpSeq st)) d2 with
          | (.ok, st3, d3, evh) =>
            (.ok, st3, d3,
             evs ++ [.write st.write_addr
               (serializeRecord (buildRecord s st.next_sequence ts))] ++ evh)
          | (_, st3, d3, evh) =>
            (.errorFlash, st3, d3,
             evs ++ [.write st.write_addr
               (serializeRecord (buildRecord s st.next_sequence ts))] ++ evh)
        else
          (.ok, advanceState (bumpSeq st), d2,
           evs ++ [.write st.write_addr
             (serializeRecord (buildRecord s st.next_sequence ts))])
      | (_, d2) =>
        (.errorFlash, bumpSeq st, d2,
         evs ++ [.write st.write_addr
           (serializeRecord (buildRecord s st.next_sequence ts))])
    | (_, d1, evs) => (.errorFlash, st, d1, evs)

/-- `FlashLog_GetAvailableRecords` (pure accessor). -/
def FlashLog_GetAvailableRecords (st : FState) : Nat :=
  if ¬ st.initialized then 0
  else if st.record_count ≤ FLASH_LOG_MAX_RECORDS then st.record_count
  else FLASH_LOG_MAX_RECORDS

/-- `FlashLog_GetRecordAddress`. -/
def FlashLog_GetRecordAddress (record_index : Nat) : Nat :=
  FLASH_LOG_DATA_START +
    record_index % FLASH_LOG_MAX_RECORDS * FLASH_LOG_RECORD_SIZE

/-- `uint32_t` subtraction. -/
def u32sub (a b : Nat) : Nat := (a % U32 + U32 - b % U32) % U32

/-- `FlashLog_ReadRecord`: LIFO read of the record `offset` positions
before the newest.  Returns the status, the record delivered through
the out-parameter (when the flash read succeeded), and the flash
operations performed. -/
def FlashLog_ReadRecord (st : FState) (d : Dev) (offset : Nat) :
    FlashLog_Status × Option FlashLog_Record × List Ev :=
  if ¬ st.initialized then (.errorParam, none, [])
  else if offset ≥ FlashLog_GetAvailableRecords st then (.errorEmpty, none, [])
  else
    match W25Q_Read d
        (FlashLog_GetRecordAddress (u32sub (u32sub st.next_sequence 1) offset))
        FLASH_LOG_RECORD_SIZE with
    | (.ok, bs) =>
      if FlashLog_VerifyRecord (deserializeRecord bs) then
        (.ok, some (deserializeRecord bs),
         [.read (FlashLog_GetRecordAddress (u32sub (u32sub st.next_sequence 1) offset))
            FLASH_LOG_RECORD_SIZE])
      else
        (.errorCRC, some (deserializeRecord bs),
         [.read (FlashLog_GetRecordAddress (u32sub (u32sub st.next_sequence 1) offset))
            FLASH_LOG_RECORD_SIZE])
    | (_, _) =>
      (.errorFlash, none,
       [.read (FlashLog_GetRecordAddress (u32sub (u32sub st.next_sequence 1) offset))
          FLASH_LOG_RECORD_SIZE])

/-- The handle contents after the `memset` at the start of `Init`. -/
def zeroState : FState :=
  { initialized := false, write_addr := 0, oldest_addr := 0
    record_count := 0, next_sequence := 0, active_header := 0 }

/-- The engine state adopted from a recovered header (with
`next_sequence` continued from `record_count` and the handle marked
initialized). -/
def stateFromHeader (h : FlashLog_Header) (active : Nat) : FState :=
  { initialized := true, write_addr := h.write_addr
    oldest_addr := h.oldest_addr, record_count := h.record_count
    next_sequence := h.record_count, active_header := active }

/-- The fresh empty state set up when neither header is valid (before
`initialized` is set). -/
def freshState : FState :=
  { initialized := false, write_addr := FLASH_LOG_DATA_START
    oldest_addr := FLASH_LOG_DATA_START, record_count := 0
    next_sequence := 0, active_header := 0 }

/-- `FlashLog_Init` on a non-null handle and device: read and validate
both headers, arbitrate, or start fresh when neither is valid (the
status of the fresh-path sector erase is discarded, exactly as in the
source). -/
def FlashLog_Init (d : Dev) : FlashLog_Status × FState × Dev :=
  match W25Q_Read d HEADER_A_ADDR 44 with
  | (.ok, bytesA) =>
    match W25Q_Read d HEADER_B_ADDR 44 with
    | (.ok, bytesB) =>
      if FlashLog_ValidateHeader (deserializeHeader bytesA) &&
         FlashLog_ValidateHeader (deserializeHeader bytesB) then
        if (deserializeHeader bytesA).sequence >
           (deserializeHeader bytesB).sequence then
          (.ok, stateFromHeader (deserializeHeader bytesA) 0, d)
        else
          (.ok, stateFromHeader (deserializeHeader bytesB) 1, d)
      else if FlashLog_ValidateHeader (deserializeHeader bytesA) then
        (.ok, stateFromHeader (deserializeHeader bytesA) 0, d)
      else if FlashLog_ValidateHeader (deserializeHeader bytesB) then
        (.ok, stateFromHeader (deserializeHeader bytesB) 1, d)
      else
        match FlashLog_WriteHeader freshState (W25Q_EraseSector d 0).2 with
        | (.ok, st', d2, _) =>
          (.ok, { st' with next_sequence := st'.record_count
                           initialized := true }, d2)
        | (status, st', d2, _) => (status, st', d2)
    | (_, _) => (.errorFlash, zeroState, d)
  | (_, _) => (.errorFlash, zeroState, d)

/-- `FlashLog_Init` including the null-argument check of the source
(`hlog == NULL || hw25q == NULL`). -/
def FlashLog_InitFull (hlogNull : Bool) (d : Option Dev) :
    FlashLog_Status × Option (FState × Dev) :=
  if hlogNull then (.errorParam, none)
  else
    match d with
    | none => (.errorParam, none)
    | some dev =>
      let (s, st, d') := FlashLog_Init dev
      (s, some (st, d'))

/-- The sector-erase loop of `FlashLog_EraseAll`, erasing sectors
`0, 1, …` and stopping at the first failure. -/
def eraseSectors (d : Dev) : Nat → Nat → W25Q_Status × Dev
  | 0, _ => (.ok, d)
  | n + 1, sector =>
    match W25Q_EraseSector d (sector * W25Q_SECTOR_SIZE) with
    | (.ok, d') => eraseSectors d' n (sector + 1)
    | (s, d') => (s, d')

/-- `FlashLog_EraseAll`: full-chip erase, state reset, fresh header. -/
def FlashLog_EraseAll (st : FState) (d : Dev) :
    FlashLog_Status × FState × Dev :=
  if ¬ st.initialized then (.errorParam, st, d)
  else
    match eraseSectors d W25Q_SECTOR_COUNT 0 with
    | (.ok, d1) =>
      match FlashLog_WriteHeader
          { st with write_addr := FLASH_LOG_DATA_START
                    record_count := 0
                    oldest_addr := FLASH_LOG_DATA_START
                    next_sequence := 0
                    active_header := 0 } d1 with
      | (s, st2, d2, _) => (s, st2, d2)
    | (_, d1) => (.errorFlash, st, d1)

/-! ### Concrete inputs used by witnesses and counterexamples -/

/-- An all-zero sensor reading. -/
def zeroSensor : Sensor :=
  { pressure := 0, temperature := 0, humidity := 0, latitude := 0
    longitude := 0, altitudeGps := 0, altitudeBar := 0, satellites := 0
    gnss_fix_quality := 0, gnss_hdop := 0, gnss_valid := false
    battery_voltage := 0 }

/-- The header read back from flash at a given slot address. -/
def headerAt (d : Dev) (addr : Nat) : FlashLog_Header :=
  deserializeHeader (devReadBytes d addr 44)

/-- A magic/version/CRC-valid header with the given `write_addr` and
with `sequence = record_count = 5`. -/
def c1Header (wa : Nat) : FlashLog_Header :=
  let body : FlashLog_Header :=
    { magic := FLASH_LOG_HEADER_MAGIC, version := FLASH_LOG_HEADER_VERSION
      write_addr := wa, record_count := 5, sequence := 5
      oldest_addr := FLASH_LOG_DATA_START, flags := 0
      reservedW0 := 0, reservedW1 := 0, reservedW2 := 0, crc32 := 0 }
  { body with crc32 := FlashLog_CRC32 (serializeHeaderBody body) }

/-- A device holding two valid headers with equal sequence numbers but
different `write_addr` (slot A: 8192, slot B: 12288). -/
def c1Dev : Dev :=
  mkDev fun a =>
    (serializeHeader (c1Header 8192) ++ List.replicate 212 255 ++
      serializeHeader (c1Header 12288)).getD a 255

/-- An initialized mid-log engine state (one record written, cursor not
at a sector boundary). -/
def c3State : FState :=
  { initialized := true, write_addr := FLASH_LOG_DATA_START + 64
    oldest_addr := FLASH_LOG_DATA_START, record_count := 1
    next_sequence := 1, active_header := 0 }

/-- An initialized engine state nine records in, so that the next
successful write triggers the periodic header commit. -/
def c2State : FState :=
  { initialized := true, write_addr := FLASH_LOG_DATA_START + 9 * 64
    oldest_addr := FLASH_LOG_DATA_START, record_count := 9
    next_sequence := 9, active_header := 0 }

/-- A device none of whose operations ever fail. -/
def PerfectDev (d : Dev) : Prop :=
  d.readFails = (fun _ _ => false) ∧ d.writeFails = (fun _ _ => false) ∧
  d.eraseFails = (fun _ => false)

/-- The engine state right after initializing an empty log: cursor at
`DATA_START`, zero records, ready for writes. -/
def c5Start : FState :=
  { initialized := true, write_addr := FLASH_LOG_DATA_START
    oldest_addr := FLASH_LOG_DATA_START, record_count := 0
    next_sequence := 0, active_header := 0 }

/-- Run `n` successful `WriteRecord` calls (fixed sensor input, the
`m`-th call carrying timestamp `ts m`), keeping state and device. -/
def runWrites (s : Sensor) (ts : Nat → Nat) : Nat → FState × Dev → FState × Dev
  | 0, sys => sys
  | n + 1, sys =>
    ((FlashLog_WriteRecord (runWrites s ts n sys).1 (runWrites s ts n sys).2
        s (ts n)).2.1,
     (FlashLog_WriteRecord (runWrites s ts n sys).1 (runWrites s ts n sys).2
        s (ts n)).2.2.1)

/-- Invariant of a run of `n` successful writes into an initially empty
log on a reliable device: the counters track `n`, slots `0..n-1` hold
the serialized records, and the rest of the data region is erased
(`0xFF`).  Holds for `n ≤ FLASH_LOG_MAX_RECORDS` (before wraparound). -/
def WriteRunInv (s : Sensor) (ts : Nat → Nat) (n : Nat)
    (sys : FState × Dev) : Prop :=
  sys.1.initialized = true ∧
  sys.1.write_addr =
    FLASH_LOG_DATA_START + n % FLASH_LOG_MAX_RECORDS * 64 ∧
  sys.1.record_count = n ∧
  sys.1.next_sequence = n ∧
  PerfectDev sys.2 ∧
  (∀ j, j < n → ∀ i, i < 64 →
    sys.2.mem (FLASH_LOG_DATA_START + j * 64 + i) =
      (serializeRecord (buildRecord s j (ts j))).getD i 0) ∧
  (∀ a, FLASH_LOG_DATA_START + n * 64 ≤ a → a < FLASH_LOG_DATA_END →
    sys.2.mem a = 255)

/-- Counter consistency of the cached engine state: `next_sequence`
tracks `record_count`, `oldest_addr` fits a `uint32_t`, and the write
cursor sits where a run of `n` records puts it — `record_count` wraps
modulo `2^32` while the cursor wraps modulo `MAX_RECORDS * 64` bytes. -/
def CounterOK (st : FState) : Prop :=
  st.next_sequence = st.record_count ∧
  st.oldest_addr < U32 ∧
  ∃ n, st.write_addr =
      FLASH_LOG_DATA_START + n % FLASH_LOG_MAX_RECORDS * 64 ∧
    st.record_count = n % U32

/-- A header slot on flash is either erased (`0xFF`) or holds the
serialized header committed from some counter-consistent state. -/
def SlotOK (d : Dev) (addr : Nat) : Prop :=
  (∀ i, i < 44 → d.mem (addr + i) = 255) ∨
  ∃ st, CounterOK st ∧
    ∀ i, i < 44 →
      d.mem (addr + i) = (serializeHeader (mkHeader st)).getD i 0

/-- The whole-system invariant maintained by the engine's successful
operations (claim C10): initialized handle, reliable device,
counter-consistent state, and engine-written (or erased) header slots. -/
def SysInv (sys : FState × Dev) : Prop :=
  sys.1.initialized = true ∧ PerfectDev sys.2 ∧ CounterOK sys.1 ∧
  SlotOK sys.2 HEADER_A_ADDR ∧ SlotOK sys.2 HEADER_B_ADDR

/-- One successful engine operation: a `FlashLog_WriteRecord`, a
`FlashLog_EraseAll`, or a `FlashLog_Init` that returned the OK status,
carrying its state and device to the next configuration. -/
inductive Step : FState × Dev → FState × Dev → Prop
  | write (sys : FState × Dev) (s : Sensor) (ts : Nat)
      (h : (FlashLog_WriteRecord sys.1 sys.2 s ts).1 = .ok) :
      Step sys ((FlashLog_WriteRecord sys.1 sys.2 s ts).2.1,
        (FlashLog_WriteRecord sys.1 sys.2 s ts).2.2.1)
  | eraseAll (sys : FState × Dev)
      (h : (FlashLog_EraseAll sys.1 sys.2).1 = .ok) :
      Step sys ((FlashLog_EraseAll sys.1 sys.2).2.1,
        (FlashLog_EraseAll sys.1 sys.2).2.2)
  | init (sys : FState × Dev)
      (h : (FlashLog_Init sys.2).1 = .ok) :
      Step sys ((FlashLog_Init sys.2).2.1, (FlashLog_Init sys.2).2.2)

/-- Reachability by any number of successful engine operations. -/
def Reach : FState × Dev → FState × Dev → Prop :=
  Relation.ReflTransGen Step

/-- A device on which every program operation fails. -/
def c3Dev : Dev :=
  { mkDev blankMem with writeFails := fun _ _ => true }

/-- A blank-flash device whose sector erases all fail (time out). -/
def c7Dev : Dev :=
  { mkDev blankMem with eraseFails := fun _ => true }

/-! ### CRC32 equivalence lemmas -/

theorem xor_mix (a b c d : Nat) :
    (a ^^^ b) ^^^ (c ^^^ d) = (a ^^^ c) ^^^ (b ^^^ d) := by
  apply Nat.eq_of_testBit_eq
  intro i
  simp only [Nat.testBit_xor]
  cases a.testBit i <;> cases b.testBit i <;> cases c.testBit i <;>
    cases d.testBit i <;> rfl

theorem shiftRight_one_xor (x y : Nat) :
    (x ^^^ y) >>> 1 = (x >>> 1) ^^^ (y >>> 1) := by
  apply Nat.eq_of_testBit_eq
  intro i
  simp [Nat.testBit_shiftRight, Nat.testBit_xor]

theorem and_one_le_one (x : Nat) : x &&& 1 ≤ 1 := by
  rw [Nat.and_one_is_mod]
  omega

theorem bitmul_xor (a b P : Nat) (ha : a ≤ 1) (hb : b ≤ 1) :
    (a ^^^ b) * P = a * P ^^^ b * P := by
  interval_cases a <;> interval_cases b <;> simp

theorem crcRound_eq (c : Nat) :
    crcRound c = (c >>> 1) ^^^ (c &&& 1) * CRC32_POLYNOMIAL := by
  unfold crcRound
  rcases Nat.mod_two_eq_zero_or_one c with h | h <;>
    simp [Nat.and_one_is_mod, h]

theorem crcRound_xor (x y : Nat) :
    crcRound (x ^^^ y) = crcRound x ^^^ crcRound y := by
  rw [crcRound_eq, crcRound_eq, crcRound_eq, shiftRight_one_xor,
    Nat.and_xor_distrib_right,
    bitmul_xor _ _ _ (and_one_le_one x) (and_one_le_one y), xor_mix]

theorem crcRounds_xor (k x y : Nat) :
    crcRound^[k] (x ^^^ y) = crcRound^[k] x ^^^ crcRound^[k] y := by
  induction k generalizing x y with
  | zero => rfl
  | succ k ih =>
    rw [Function.iterate_succ_apply, Function.iterate_succ_apply,
      Function.iterate_succ_apply, crcRound_xor, ih]

theorem crcRound_double (y : Nat) : crcRound (2 * y) = y := by
  rw [crcRound_eq]
  have h1 : (2 * y) &&& 1 = 0 := by
    rw [Nat.and_one_is_mod]
    omega
  have h2 : (2 * y) >>> 1 = y := by
    rw [Nat.shiftRight_eq_div_pow]
    omega
  simp [h1, h2]

theorem crcRounds_mul_pow (k y : Nat) : crcRound^[k] (2 ^ k * y) = y := by
  induction k generalizing y with
  | zero => simp
  | succ k ih =>
    rw [Function.iterate_succ_apply]
    have he : 2 ^ (k + 1) * y = 2 * (2 ^ k * y) := by ring
    rw [he, crcRound_double, ih]

/-- Every natural splits as its low 8 bits xor its high part shifted. -/
theorem split_low8 (x : Nat) : x = (x &&& 255) ^^^ ((x >>> 8) <<< 8) := by
  apply Nat.eq_of_testBit_eq
  intro i
  have h255 : (255 : Nat) = 2 ^ 8 - 1 := by norm_num
  simp only [Nat.testBit_xor, Nat.testBit_and, Nat.testBit_shiftLeft,
    Nat.testBit_shiftRight, h255, Nat.testBit_two_pow_sub_one]
  by_cases h : i < 8
  · have h8 : ¬ (8 ≤ i) := by omega
    simp [h, h8]
  · have h8 : 8 ≤ i := by omega
    have : 8 + (i - 8) = i := by omega
    simp [h, h8, this]

/-- The 8-round inner loop splits into a plain shift of the high bits
and the table computation on the low byte. -/
theorem crcRounds8_split (x : Nat) :
    crcRound^[8] x = (x >>> 8) ^^^ crcRound^[8] (x &&& 255) := by
  conv_lhs => rw [split_low8 x]
  rw [crcRounds_xor]
  rw [Nat.shiftLeft_eq, Nat.mul_comm, crcRounds_mul_pow]
  rw [Nat.xor_comm]

theorem crc32_table_getD (i : Nat) (h : i < 256) :
    crc32_table.getD i 0 = crcEntry i := by
  have hl : i < crc32_table.length := by
    simp [crc32_table, h]
  rw [List.getD_eq_getElem _ _ hl]
  simp [crc32_table]

theorem and_255_lt (x : Nat) : x &&& 255 < 256 := by
  have : x &&& 255 ≤ 255 := Nat.and_le_right
  omega

/-- The table-driven per-byte step agrees with the bitwise 8-round
update on genuine bytes. -/
theorem crcStep_eq_bitwise (c b : Nat) (hb : b < 256) :
    crcStep c b = crcRound^[8] (c ^^^ b) := by
  rw [crcRounds8_split]
  have hb8 : b >>> 8 = 0 := by
    rw [Nat.shiftRight_eq_div_pow]
    omega
  have hsh : (c ^^^ b) >>> 8 = c >>> 8 := by
    apply Nat.eq_of_testBit_eq
    intro i
    simp only [Nat.testBit_shiftRight, Nat.testBit_xor]
    have : b.testBit (8 + i) = false := by
      apply Nat.testBit_eq_false_of_lt
      calc b < 256 := hb
        _ = 2 ^ 8 := by norm_num
        _ ≤ 2 ^ (8 + i) := Nat.pow_le_pow_right (by norm_num) (by omega)
    simp [this]
  rw [hsh, crcStep, crc32_table_getD _ (and_255_lt _), crcEntry]

theorem foldl_crcStep_eq (data : List Nat) (hdata : ∀ b ∈ data, b < 256) :
    ∀ c, data.foldl crcStep c =
      data.foldl (fun crc b => crcRound^[8] (crc ^^^ b)) c := by
  induction data with
  | nil => intro c; rfl
  | cons b bs ih =>
    intro c
    have hb : b < 256 := hdata b (List.mem_cons_self ..)
    have hbs : ∀ x ∈ bs, x < 256 := fun x hx => hdata x (List.mem_cons_of_mem _ hx)
    simp only [List.foldl_cons, crcStep_eq_bitwise c b hb, ih hbs]

/-- C6: For every byte array, the table-driven `FlashLog_CRC32` is
extensionally equal to the reference bitwise CRC-32/ISO-HDLC algorithm
(reflected polynomial `0xEDB88320`, seed `0xFFFFFFFF`, final
complement); being a pure function it is deterministic. -/
theorem claim_C6 (data : List Nat) (h : ∀ b ∈ data, b < 256) :
    FlashLog_CRC32 data = crc32_bitwise data := by
  unfold FlashLog_CRC32 crc32_bitwise
  rw [foldl_crcStep_eq data h]

theorem claim_C6_witness :
    (∀ b ∈ [49, 50, 51, 52, 53, 54, 55, 56, 57], b < 256) ∧
      FlashLog_CRC32 [49, 50, 51, 52, 53, 54, 55, 56, 57] =
        crc32_bitwise [49, 50, 51, 52, 53, 54, 55, 56, 57] :=
  ⟨by decide, claim_C6 [49, 50, 51, 52, 53, 54, 55, 56, 57] (by decide)⟩

/-! ### Codec round-trip lemmas -/

theorem dec32_enc (n : Nat) (h : n < U32) :
    n % 256 + 256 * (n / 256 % 256) + 65536 * (n / 65536 % 256) +
      16777216 * (n / 16777216 % 256) = n := by
  unfold U32 at h
  omega

theorem dec16_enc (n : Nat) (h : n < 65536) :
    n % 256 + 256 * (n / 256 % 256) = n := by
  omega

/-- CRC32 values fit in 32 bits. -/
theorem crcRound_lt (c : Nat) (h : c < U32) : crcRound c < U32 := by
  unfold crcRound
  split
  · exact Nat.xor_lt_two_pow (by
      have : c >>> 1 = c / 2 := by
        rw [Nat.shiftRight_eq_div_pow]
      unfold U32 at *
      omega) (by norm_num [CRC32_POLYNOMIAL, U32])
  · have : c >>> 1 = c / 2 := by
      rw [Nat.shiftRight_eq_div_pow]
    unfold U32 at *
    omega

theorem crcRounds_lt (k c : Nat) (h : c < U32) : crcRound^[k] c < U32 := by
  induction k generalizing c with
  | zero => exact h
  | succ k ih =>
    rw [Function.iterate_succ_apply]
    exact ih _ (crcRound_lt c h)

theorem crc32_table_getD_lt (idx : Nat) : crc32_table.getD idx 0 < U32 := by
  by_cases h : idx < 256
  · rw [crc32_table_getD idx h]
    exact crcRounds_lt 8 idx (by unfold U32; omega)
  · have hlen : crc32_table.length ≤ idx := by
      simp only [crc32_table, List.length_map, List.length_range]
      omega
    rw [List.getD_eq_default _ _ hlen]
    norm_num [U32]

theorem crcStep_lt (c b : Nat) (h : c < U32) : crcStep c b < U32 := by
  unfold crcStep
  apply Nat.xor_lt_two_pow
  · have h8 : c >>> 8 = c / 256 := by
      rw [Nat.shiftRight_eq_div_pow]
    unfold U32 at *
    omega
  · exact crc32_table_getD_lt _

theorem foldl_crcStep_lt (data : List Nat) :
    ∀ c, c < U32 → data.foldl crcStep c < U32 := by
  induction data with
  | nil => intro c hc; exact hc
  | cons b bs ih =>
    intro c hc
    exact ih _ (crcStep_lt c b hc)

theorem FlashLog_CRC32_lt (data : List Nat) : FlashLog_CRC32 data < U32 := by
  unfold FlashLog_CRC32
  exact Nat.xor_lt_two_pow
    (foldl_crcStep_lt data _ (by norm_num [U32])) (by norm_num [U32])

theorem enc32_bytes_lt : ∀ x ∈ enc32 n, x < 256 := by
  simp only [enc32, List.mem_cons, List.not_mem_nil, or_false]
  rintro x (rfl | rfl | rfl | rfl) <;> omega

theorem enc16_bytes_lt : ∀ x ∈ enc16 n, x < 256 := by
  simp only [enc16, List.mem_cons, List.not_mem_nil, or_false]
  rintro x (rfl | rfl) <;> omega

theorem enc8_bytes_lt : ∀ x ∈ enc8 n, x < 256 := by
  simp only [enc8, List.mem_cons, List.not_mem_nil, or_false]
  rintro x rfl
  omega

theorem map_mod_bytes_lt (l : List Nat) : ∀ x ∈ l.map (· % 256), x < 256 := by
  simp only [List.mem_map]
  rintro x ⟨b, _, rfl⟩
  omega

theorem serializeRecord_bytes_lt (r : FlashLog_Record) :
    ∀ x ∈ serializeRecord r, x < 256 := by
  unfold serializeRecord serializeRecordBody
  simp only [List.forall_mem_append, List.forall_mem_cons,
    List.forall_mem_nil, and_true]
  repeat' apply And.intro
  all_goals first
    | omega
    | exact enc32_bytes_lt
    | exact map_mod_bytes_lt _
    | exact fun a _ => Nat.mod_lt _ (by norm_num)
    | simp

theorem serializeHeader_bytes_lt (h : FlashLog_Header) :
    ∀ x ∈ serializeHeader h, x < 256 := by
  unfold serializeHeader serializeHeaderBody
  simp only [List.forall_mem_append, List.forall_mem_cons,
    List.forall_mem_nil, and_true]
  repeat' apply And.intro
  all_goals first
    | omega
    | exact enc32_bytes_lt
    | simp

theorem serializeRecord_length (r : FlashLog_Record)
    (h : r.reservedTail.length = 14) : (serializeRecord r).length = 64 := by
  simp [serializeRecord, serializeRecordBody, enc32, h]

theorem serializeHeader_length (h : FlashLog_Header) :
    (serializeHeader h).length = 44 := by
  simp [serializeHeader, serializeHeaderBody, enc32]

/-- Reading back a just-written byte range returns it unchanged. -/
theorem readBytes_writeBytes (mem : Nat → Nat) (addr : Nat) (bs : List Nat)
    (hb : ∀ x ∈ bs, x < 256) :
    (List.range bs.length).map
      (fun i => writeBytesMem mem addr bs (addr + i) % 256) = bs := by
  apply List.ext_getElem
  · simp
  · intro i hi hlen
    simp only [List.getElem_map, List.getElem_range]
    have hirange : i < bs.length := by simpa using hlen
    have hw : writeBytesMem mem addr bs (addr + i) = bs.getD i 0 := by
      unfold writeBytesMem
      have hcond : addr ≤ addr + i ∧ addr + i < addr + bs.length := by omega
      rw [if_pos hcond]
      congr 1
      omega
    rw [hw, List.getD_eq_getElem _ _ hirange]
    exact Nat.mod_eq_of_lt (hb _ (List.getElem_mem _))

set_option maxHeartbeats 1600000 in
/-- Pure codec round-trip for records built by the engine. -/
theorem deserialize_serializeRecord (r : FlashLog_Record) (h : WFRecord r) :
    deserializeRecord (serializeRecord r) = r := by
  obtain ⟨m, sq, ts, pr, te, hu, la, lo, ag, ab, sa, gf, gh, gv, r1, r2, bm,
    fl, r3, rt, crc⟩ := r
  obtain ⟨h1, h2, h3, h4, h5, h6, h7, h8, h9, h10, h11, h12, h13, h14, h15,
    h16, h17, h18, h19, h20, h21⟩ := h
  replace h20 : rt = List.replicate 14 0 := h20
  subst h20
  show FlashLog_Record.mk _ _ _ _ _ _ _ _ _ _ _ _ _ _ _ _ _ _ _ _ _ = _
  simp only [FlashLog_Record.mk.injEq]
  refine ⟨?_, ?_, ?_, ?_, ?_, ?_, ?_, ?_, ?_, ?_, ?_, ?_, ?_, ?_, ?_, ?_,
    ?_, ?_, ?_, ?_, ?_⟩
  · exact dec32_enc m h1
  · exact dec32_enc sq h2
  · exact dec32_enc ts h3
  · exact dec32_enc pr h4
  · exact dec32_enc te h5
  · exact dec32_enc hu h6
  · exact dec32_enc la h7
  · exact dec32_enc lo h8
  · exact dec16_enc ag h9
  · exact dec16_enc ab h10
  · exact Nat.mod_eq_of_lt h11
  · exact Nat.mod_eq_of_lt h12
  · exact Nat.mod_eq_of_lt h13
  · exact Nat.mod_eq_of_lt h14
  · exact Nat.mod_eq_of_lt h15
  · exact Nat.mod_eq_of_lt h16
  · exact dec16_enc bm h17
  · exact Nat.mod_eq_of_lt h18
  · exact Nat.mod_eq_of_lt h19
  · rfl
  · exact dec32_enc crc h21

/-- Well-formedness of headers as laid out by the engine. -/
def WFHeader (h : FlashLog_Header) : Prop :=
  h.magic < U32 ∧ h.version < U32 ∧ h.write_addr < U32 ∧
  h.record_count < U32 ∧ h.sequence < U32 ∧ h.oldest_addr < U32 ∧
  h.flags < U32 ∧ h.reservedW0 < U32 ∧ h.reservedW1 < U32 ∧
  h.reservedW2 < U32 ∧ h.crc32 < U32

/-- Pure codec round-trip for headers. -/
theorem deserialize_serializeHeader (h : FlashLog_Header) (hw : WFHeader h) :
    deserializeHeader (serializeHeader h) = h := by
  obtain ⟨m, v, wa, rc, sq, oa, fl, w0, w1, w2, crc⟩ := h
  obtain ⟨h1, h2, h3, h4, h5, h6, h7, h8, h9, h10, h11⟩ := hw
  show FlashLog_Header.mk _ _ _ _ _ _ _ _ _ _ _ = _
  simp only [FlashLog_Header.mk.injEq]
  exact ⟨dec32_enc m h1, dec32_enc v h2, dec32_enc wa h3, dec32_enc rc h4,
    dec32_enc sq h5, dec32_enc oa h6, dec32_enc fl h7, dec32_enc w0 h8,
    dec32_enc w1 h9, dec32_enc w2 h10, dec32_enc crc h11⟩

/-! ### `W25Q_Write` page decomposition (C9) -/

theorem w25qWriteChunks_spec (fuel : Nat) :
    ∀ addr len, len ≤ fuel → addr + len ≤ W25Q_FLASH_SIZE →
      (∀ p ∈ w25qWriteChunks fuel addr len,
        1 ≤ p.2 ∧ p.2 ≤ W25Q_PAGE_SIZE ∧
        p.1 % W25Q_PAGE_SIZE + p.2 ≤ W25Q_PAGE_SIZE ∧
        p.1 + p.2 ≤ W25Q_FLASH_SIZE) ∧
      (w25qWriteChunks fuel addr len).flatMap
        (fun p => List.range' p.1 p.2) = List.range' addr len := by
  induction fuel with
  | zero =>
    intro addr len hf _
    interval_cases len
    exact ⟨by simp [w25qWriteChunks], by simp [w25qWriteChunks]⟩
  | succ fuel ih =>
    intro addr len hf hb
    by_cases h0 : len = 0
    · subst h0
      exact ⟨by simp [w25qWriteChunks], by simp [w25qWriteChunks]⟩
    · have hpo : addr % W25Q_PAGE_SIZE < W25Q_PAGE_SIZE :=
        Nat.mod_lt _ (by norm_num [W25Q_PAGE_SIZE])
      set po := addr % W25Q_PAGE_SIZE with hpo_def
      set k := if W25Q_PAGE_SIZE - po > len then len else W25Q_PAGE_SIZE - po
        with hk_def
      have hk1 : 1 ≤ k := by
        rw [hk_def]
        split <;> omega
      have hkle : k ≤ len := by
        rw [hk_def]
        split <;> omega
      have hkpage : po + k ≤ W25Q_PAGE_SIZE := by
        rw [hk_def]
        split <;> omega
      have hkP : k ≤ W25Q_PAGE_SIZE := by omega
      have hchunk : w25qWriteChunks (fuel + 1) addr len =
          (addr, k) :: w25qWriteChunks fuel (addr + k) (len - k) := by
        rw [w25qWriteChunks]
        rw [if_neg h0]
      obtain ⟨ihA, ihB⟩ := ih (addr + k) (len - k) (by omega) (by omega)
      constructor
      · intro p hp
        rw [hchunk] at hp
        rcases List.mem_cons.1 hp with rfl | hp
        · exact ⟨hk1, hkP, hkpage, by omega⟩
        · exact ihA p hp
      · rw [hchunk, List.flatMap_cons, ihB]
        have hsplit : List.range' addr k ++ List.range' (addr + k) (len - k) =
            List.range' addr len := by
          rw [List.range'_append_1]
          congr 1
          omega
        exact hsplit

/-- C9: for any in-range write, the `W25Q_Write` loop decomposes the
transfer into chunks of 1..256 bytes, none crossing a 256-byte page
boundary, whose concatenation covers exactly `[addr, addr+len)`; hence
every `W25Q_PageProgram` call it issues passes that function's
parameter checks, and the `W25Q_ERROR_PARAM` branch of
`W25Q_PageProgram` is unreachable from `W25Q_Write`. -/
theorem claim_C9 (addr len : Nat) (h : addr + len ≤ W25Q_FLASH_SIZE) :
    (∀ p ∈ w25qWriteChunks len addr len,
      1 ≤ p.2 ∧ p.2 ≤ W25Q_PAGE_SIZE ∧
      p.1 % W25Q_PAGE_SIZE + p.2 ≤ W25Q_PAGE_SIZE ∧
      W25Q_PageProgramParamReject p.1 p.2 = false) ∧
    (w25qWriteChunks len addr len).flatMap
      (fun p => List.range' p.1 p.2) = List.range' addr len := by
  obtain ⟨hA, hB⟩ := w25qWriteChunks_spec len addr len (le_refl _) h
  refine ⟨?_, hB⟩
  intro p hp
  obtain ⟨h1, h2, h3, h4⟩ := hA p hp
  refine ⟨h1, h2, h3, ?_⟩
  unfold W25Q_PageProgramParamReject
  rw [if_neg (by omega), if_neg (by omega), if_neg (by omega)]

theorem claim_C9_witness :
    4000 + 600 ≤ W25Q_FLASH_SIZE ∧
    ((∀ p ∈ w25qWriteChunks 600 4000 600,
      1 ≤ p.2 ∧ p.2 ≤ W25Q_PAGE_SIZE ∧
      p.1 % W25Q_PAGE_SIZE + p.2 ≤ W25Q_PAGE_SIZE ∧
      W25Q_PageProgramParamReject p.1 p.2 = false) ∧
    (w25qWriteChunks 600 4000 600).flatMap
      (fun p => List.range' p.1 p.2) = List.range' 4000 600) :=
  ⟨by norm_num [W25Q_FLASH_SIZE], claim_C9 4000 600 (by norm_num [W25Q_FLASH_SIZE])⟩

/-! ### Execution equations for the device operations -/

theorem W25Q_Write_ok (d : Dev) (addr : Nat) (bs : List Nat)
    (h1 : bs.length ≠ 0) (h2 : addr + bs.length ≤ W25Q_FLASH_SIZE)
    (h3 : d.writeFails addr bs.length = false) :
    W25Q_Write d addr bs = (.ok, { d with mem := writeBytesMem d.mem addr bs }) := by
  unfold W25Q_Write
  rw [if_neg (by push_neg; omega), if_neg (by rw [h3]; simp)]

theorem W25Q_Write_fail (d : Dev) (addr : Nat) (bs : List Nat)
    (h1 : bs.length ≠ 0) (h2 : addr + bs.length ≤ W25Q_FLASH_SIZE)
    (h3 : d.writeFails addr bs.length = true) :
    W25Q_Write d addr bs = (.error, { d with mem := d.failWriteMem addr bs }) := by
  unfold W25Q_Write
  rw [if_neg (by push_neg; omega), if_pos h3]

theorem W25Q_Read_ok (d : Dev) (addr len : Nat)
    (h1 : len ≠ 0) (h2 : addr + len ≤ W25Q_FLASH_SIZE)
    (h3 : d.readFails addr len = false) :
    W25Q_Read d addr len = (.ok, devReadBytes d addr len) := by
  unfold W25Q_Read
  rw [if_neg (by push_neg; omega), if_neg (by rw [h3]; simp)]

theorem W25Q_EraseSector_ok (d : Dev) (addr : Nat)
    (h1 : addr < W25Q_FLASH_SIZE) (h2 : d.eraseFails addr = false) :
    W25Q_EraseSector d addr =
      (.ok, { d with
        mem := eraseSectorMem d.mem (addr / W25Q_SECTOR_SIZE * W25Q_SECTOR_SIZE) }) := by
  unfold W25Q_EraseSector
  rw [if_neg (by omega), if_neg (by rw [h2]; simp)]

theorem W25Q_EraseSector_fail (d : Dev) (addr : Nat)
    (h1 : addr < W25Q_FLASH_SIZE) (h2 : d.eraseFails addr = true) :
    W25Q_EraseSector d addr = (.error, { d with mem := d.failEraseMem addr }) := by
  unfold W25Q_EraseSector
  rw [if_neg (by omega), if_pos h2]

/-- A skipped erase (cursor not at a sector start). -/
theorem eraseIfNeeded_skip (d : Dev) (addr : Nat)
    (h : addr % W25Q_SECTOR_SIZE ≠ 0) :
    FlashLog_EraseSectorIfNeeded d addr = (.ok, d, []) := by
  unfold FlashLog_EraseSectorIfNeeded
  rw [if_neg h]

/-- A performed, successful erase at a sector start. -/
theorem eraseIfNeeded_ok (d : Dev) (addr : Nat)
    (ha : addr % W25Q_SECTOR_SIZE = 0) (hb : addr < W25Q_FLASH_SIZE)
    (hc : d.eraseFails addr = false) :
    FlashLog_EraseSectorIfNeeded d addr =
      (.ok, { d with mem := eraseSectorMem d.mem addr }, [.erase addr]) := by
  have hsec : addr / W25Q_SECTOR_SIZE * W25Q_SECTOR_SIZE = addr :=
    Nat.div_mul_cancel (Nat.dvd_of_mod_eq_zero ha)
  unfold FlashLog_EraseSectorIfNeeded
  rw [if_pos ha, hsec, W25Q_EraseSector_ok d addr hb hc, hsec]

/-- A performed erase that fails. -/
theorem eraseIfNeeded_fail (d : Dev) (addr : Nat)
    (ha : addr % W25Q_SECTOR_SIZE = 0) (hb : addr < W25Q_FLASH_SIZE)
    (hc : d.eraseFails addr = true) :
    FlashLog_EraseSectorIfNeeded d addr =
      (.errorFlash, { d with mem := d.failEraseMem addr }, [.erase addr]) := by
  have hsec : addr / W25Q_SECTOR_SIZE * W25Q_SECTOR_SIZE = addr :=
    Nat.div_mul_cancel (Nat.dvd_of_mod_eq_zero ha)
  unfold FlashLog_EraseSectorIfNeeded
  rw [if_pos ha, hsec, W25Q_EraseSector_fail d addr hb hc]

theorem mkHeader_reserved_len (st : FState) :
    (serializeHeader (mkHeader st)).length = 44 := serializeHeader_length _

theorem pingSlotAddr_bound (a : Nat) : pingSlotAddr a + 44 ≤ W25Q_FLASH_SIZE := by
  unfold pingSlotAddr
  split <;> norm_num [HEADER_A_ADDR, HEADER_B_ADDR, W25Q_FLASH_SIZE]

/-- A successful header commit. -/
theorem FlashLog_WriteHeader_ok (st : FState) (d : Dev)
    (h : d.writeFails (pingSlotAddr (toggleActive st.active_header)) 44 = false) :
    FlashLog_WriteHeader st d =
      (.ok, { st with active_header := toggleActive st.active_header },
       { d with
         mem := writeBytesMem d.mem (pingSlotAddr (toggleActive st.active_header)) (serializeHeader (mkHeader st)) },
       [.write (pingSlotAddr (toggleActive st.active_header))
          (serializeHeader (mkHeader st))]) := by
  unfold FlashLog_WriteHeader
  rw [W25Q_Write_ok d _ _ (by rw [mkHeader_reserved_len]; omega)
    (by rw [mkHeader_reserved_len]; exact pingSlotAddr_bound _)
    (by rw [mkHeader_reserved_len]; exact h)]

/-- A failed header commit (slot already toggled, flash error). -/
theorem FlashLog_WriteHeader_fail (st : FState) (d : Dev)
    (h : d.writeFails (pingSlotAddr (toggleActive st.active_header)) 44 = true) :
    FlashLog_WriteHeader st d =
      (.errorFlash, { st with active_header := toggleActive st.active_header },
       { d with
         mem := d.failWriteMem (pingSlotAddr (toggleActive st.active_header)) (serializeHeader (mkHeader st)) },
       [.write (pingSlotAddr (toggleActive st.active_header))
          (serializeHeader (mkHeader st))]) := by
  unfold FlashLog_WriteHeader
  rw [W25Q_Write_fail d _ _ (by rw [mkHeader_reserved_len]; omega)
    (by rw [mkHeader_reserved_len]; exact pingSlotAddr_bound _)
    (by rw [mkHeader_reserved_len]; exact h)]

theorem buildRecord_reserved_len (s : Sensor) (seq ts : Nat) :
    (buildRecord s seq ts).reservedTail.length = 14 := by
  simp [buildRecord]

theorem serializeBuildRecord_length (s : Sensor) (seq ts : Nat) :
    (serializeRecord (buildRecord s seq ts)).length = 64 :=
  serializeRecord_length _ (buildRecord_reserved_len s seq ts)

/-! ### Claim C8: WriteRecord on an uninitialized handle -/

/-- C8 (amended): a `FlashLog_WriteRecord` call on a handle that has
not been initialized performs no flash I/O and leaves the state and
device untouched, but returns the Param error status — the same status
used for null arguments — not the distinct Init error status the spec
names. -/
theorem claim_C8 (st : FState) (d : Dev) (s : Sensor) (ts : Nat)
    (h : st.initialized = false) :
    FlashLog_WriteRecord st d s ts = (.errorParam, st, d, []) := by
  unfold FlashLog_WriteRecord
  rw [h]
  simp

theorem claim_C8_witness :
    ({ c3State with initialized := false } : FState).initialized = false ∧
    FlashLog_WriteRecord { c3State with initialized := false }
        (mkDev blankMem) zeroSensor 0 =
      (.errorParam, { c3State with initialized := false }, mkDev blankMem, []) :=
  ⟨rfl, claim_C8 { c3State with initialized := false } (mkDev blankMem)
    zeroSensor 0 rfl⟩

/-- C8 counterexample to the claim as stated: on an uninitialized
(non-null) handle, the call returns `FLASH_LOG_ERROR_PARAM`, not the
`FLASH_LOG_ERROR_INIT` status the claim requires. -/
theorem claim_C8_counterexample :
    (FlashLog_WriteRecord { c3State with initialized := false }
        (mkDev blankMem) zeroSensor 0).1 = FlashLog_Status.errorParam ∧
    (FlashLog_WriteRecord { c3State with initialized := false }
        (mkDev blankMem) zeroSensor 0).1 ≠ FlashLog_Status.errorInit := by
  constructor
  · rfl
  · decide

/-! ### Claim C3: failed WriteRecord and the cached counters -/

/-- C3 (amended): a failed `FlashLog_WriteRecord` leaves `write_addr`,
`record_count` and `oldest_addr` unchanged unless the failure happened
in the periodic header commit (by which point all counters and the
active slot have already advanced); `next_sequence`, however, is
post-incremented before the record flash write, so any failure at or
after that write leaves `next_sequence` advanced by one. -/
theorem claim_C3 (st : FState) (d : Dev) (s : Sensor) (ts : Nat)
    (hinit : st.initialized = true) :
    (st.write_addr % W25Q_SECTOR_SIZE = 0 →
      st.write_addr < W25Q_FLASH_SIZE →
      d.eraseFails st.write_addr = true →
      (FlashLog_WriteRecord st d s ts).1 = .errorFlash ∧
      (FlashLog_WriteRecord st d s ts).2.1 = st) ∧
    (st.write_addr % W25Q_SECTOR_SIZE ≠ 0 →
      st.write_addr + 64 ≤ W25Q_FLASH_SIZE →
      d.writeFails st.write_addr 64 = true →
      (FlashLog_WriteRecord st d s ts).1 = .errorFlash ∧
      (FlashLog_WriteRecord st d s ts).2.1 = bumpSeq st) ∧
    (st.write_addr % W25Q_SECTOR_SIZE ≠ 0 →
      st.write_addr + 64 ≤ W25Q_FLASH_SIZE →
      d.writeFails st.write_addr 64 = false →
      (advanceState (bumpSeq st)).record_count % HEADER_UPDATE_INTERVAL = 0 →
      d.writeFails (pingSlotAddr (toggleActive st.active_header)) 44 = true →
      (FlashLog_WriteRecord st d s ts).1 = .errorFlash ∧
      (FlashLog_WriteRecord st d s ts).2.1 =
        { advanceState (bumpSeq st) with
          active_header := toggleActive st.active_header }) := by
  refine ⟨?_, ?_, ?_⟩
  · intro ha1 ha2 ha3
    unfold FlashLog_WriteRecord
    rw [hinit]
    rw [if_neg (by simp), eraseIfNeeded_fail d st.write_addr ha1 ha2 ha3]
    exact ⟨rfl, rfl⟩
  · intro hb1 hb2 hb3
    unfold FlashLog_WriteRecord
    rw [hinit]
    rw [if_neg (by simp), eraseIfNeeded_skip d st.write_addr hb1]
    dsimp only
    rw [W25Q_Write_fail d st.write_addr
        (serializeRecord (buildRecord s st.next_sequence ts))
        (by rw [serializeBuildRecord_length]; omega)
        (by rw [serializeBuildRecord_length]; omega)
        (by rw [serializeBuildRecord_length]; exact hb3)]
    exact ⟨rfl, rfl⟩
  · intro hc1 hc2 hc3 hc4 hc5
    unfold FlashLog_WriteRecord
    rw [hinit]
    rw [if_neg (by simp), eraseIfNeeded_skip d st.write_addr hc1]
    dsimp only
    rw [W25Q_Write_ok d st.write_addr
        (serializeRecord (buildRecord s st.next_sequence ts))
        (by rw [serializeBuildRecord_length]; omega)
        (by rw [serializeBuildRecord_length]; omega)
        (by rw [serializeBuildRecord_length]; exact hc3)]
    dsimp only
    rw [if_pos hc4]
    rw [FlashLog_WriteHeader_fail (advanceState (bumpSeq st)) _ (by exact hc5)]
    exact ⟨rfl, rfl⟩

theorem claim_C3_witness :
    c3State.initialized = true ∧
    c3State.write_addr % W25Q_SECTOR_SIZE ≠ 0 ∧
    c3State.write_addr + 64 ≤ W25Q_FLASH_SIZE ∧
    c3Dev.writeFails c3State.write_addr 64 = true ∧
    ((FlashLog_WriteRecord c3State c3Dev zeroSensor 0).1 = .errorFlash ∧
     (FlashLog_WriteRecord c3State c3Dev zeroSensor 0).2.1 = bumpSeq c3State) :=
  ⟨rfl, by decide, by decide, rfl,
    (claim_C3 c3State c3Dev zeroSensor 0 rfl).2.1 (by decide) (by decide) rfl⟩

/-- C3 counterexample to the claim as stated: with the record flash
write failing, `FlashLog_WriteRecord` returns an error yet
`next_sequence` has already been incremented. -/
theorem claim_C3_counterexample :
    (FlashLog_WriteRecord c3State c3Dev zeroSensor 0).1 ≠ .ok ∧
    (FlashLog_WriteRecord c3State c3Dev zeroSensor 0).2.1.next_sequence ≠
      c3State.next_sequence := by
  constructor
  · decide
  · decide

/-! ### Claim C1: Init header arbitration -/

/-- C1 (amended): when both headers validate, `Init` adopts the state
(`write_addr`, `record_count`, `oldest_addr`, active slot) of the one
with the strictly higher `sequence`; when the two sequence values are
equal, slot 1 (header B) is selected — the `>` comparison in the source
falls through to the B branch on ties. -/
theorem claim_C1 (d : Dev)
    (hra : d.readFails HEADER_A_ADDR 44 = false)
    (hrb : d.readFails HEADER_B_ADDR 44 = false)
    (hva : FlashLog_ValidateHeader (headerAt d HEADER_A_ADDR) = true)
    (hvb : FlashLog_ValidateHeader (headerAt d HEADER_B_ADDR) = true) :
    FlashLog_Init d =
      (.ok,
       if (headerAt d HEADER_A_ADDR).sequence >
          (headerAt d HEADER_B_ADDR).sequence then
         stateFromHeader (headerAt d HEADER_A_ADDR) 0
       else
         stateFromHeader (headerAt d HEADER_B_ADDR) 1,
       d) := by
  unfold FlashLog_Init
  rw [W25Q_Read_ok d HEADER_A_ADDR 44 (by omega)
    (by norm_num [HEADER_A_ADDR, W25Q_FLASH_SIZE]) hra]
  dsimp only
  rw [W25Q_Read_ok d HEADER_B_ADDR 44 (by omega)
    (by norm_num [HEADER_B_ADDR, W25Q_FLASH_SIZE]) hrb]
  dsimp only
  rw [show deserializeHeader (devReadBytes d HEADER_A_ADDR 44) =
      headerAt d HEADER_A_ADDR from rfl,
    show deserializeHeader (devReadBytes d HEADER_B_ADDR 44) =
      headerAt d HEADER_B_ADDR from rfl,
    hva, hvb]
  by_cases hcmp : (headerAt d HEADER_A_ADDR).sequence >
      (headerAt d HEADER_B_ADDR).sequence
  · simp [hcmp]
  · simp [hcmp]

set_option maxRecDepth 100000 in
theorem claim_C1_witness :
    c1Dev.readFails HEADER_A_ADDR 44 = false ∧
    c1Dev.readFails HEADER_B_ADDR 44 = false ∧
    FlashLog_ValidateHeader (headerAt c1Dev HEADER_A_ADDR) = true ∧
    FlashLog_ValidateHeader (headerAt c1Dev HEADER_B_ADDR) = true ∧
    FlashLog_Init c1Dev =
      (.ok,
       if (headerAt c1Dev HEADER_A_ADDR).sequence >
          (headerAt c1Dev HEADER_B_ADDR).sequence then
         stateFromHeader (headerAt c1Dev HEADER_A_ADDR) 0
       else
         stateFromHeader (headerAt c1Dev HEADER_B_ADDR) 1,
       c1Dev) :=
  ⟨rfl, rfl, by decide, by decide,
    claim_C1 c1Dev rfl rfl (by decide) (by decide)⟩

set_option maxRecDepth 100000 in
/-- C1 counterexample to the claim as stated: both headers valid with
equal sequence values (5), yet `Init` selects slot 1 (header B) — its
`write_addr` is B's 12288, not A's 8192 — where the claim requires slot
0 by convention. -/
theorem claim_C1_counterexample :
    FlashLog_ValidateHeader (headerAt c1Dev HEADER_A_ADDR) = true ∧
    FlashLog_ValidateHeader (headerAt c1Dev HEADER_B_ADDR) = true ∧
    (headerAt c1Dev HEADER_A_ADDR).sequence =
      (headerAt c1Dev HEADER_B_ADDR).sequence ∧
    (FlashLog_Init c1Dev).2.1.active_header = 1 ∧
    (FlashLog_Init c1Dev).2.1.write_addr = 12288 ∧
    (headerAt c1Dev HEADER_A_ADDR).write_addr = 8192 := by
  refine ⟨by decide, by decide, by decide, ?_, ?_, by decide⟩ <;> decide

/-! ### Claim C7: Init error statuses -/

/-- C7 (amended): `Init` propagates the Flash error status when either
header read fails or when (on the neither-header-valid path) the
fresh-header write fails; the status of the header-sector erase on that
path is discarded by the source, so an erase failure alone does not
make `Init` fail.  Null arguments yield the Param error status. -/
theorem claim_C7 (d : Dev) :
    (FlashLog_InitFull true (some d) = (.errorParam, none) ∧
     FlashLog_InitFull false none = (.errorParam, none)) ∧
    (d.readFails HEADER_A_ADDR 44 = true →
      (FlashLog_Init d).1 = .errorFlash) ∧
    (d.readFails HEADER_A_ADDR 44 = false →
     d.readFails HEADER_B_ADDR 44 = true →
      (FlashLog_Init d).1 = .errorFlash) ∧
    (d.readFails HEADER_A_ADDR 44 = false →
     d.readFails HEADER_B_ADDR 44 = false →
     FlashLog_ValidateHeader (headerAt d HEADER_A_ADDR) = false →
     FlashLog_ValidateHeader (headerAt d HEADER_B_ADDR) = false →
     d.writeFails HEADER_B_ADDR 44 = true →
      (FlashLog_Init d).1 = .errorFlash) := by
  refine ⟨⟨rfl, rfl⟩, ?_, ?_, ?_⟩
  · intro h
    unfold FlashLog_Init W25Q_Read
    rw [if_neg (by norm_num [HEADER_A_ADDR, W25Q_FLASH_SIZE]), if_pos h]
  · intro h1 h2
    unfold FlashLog_Init
    rw [W25Q_Read_ok d HEADER_A_ADDR 44 (by omega)
      (by norm_num [HEADER_A_ADDR, W25Q_FLASH_SIZE]) h1]
    dsimp only
    unfold W25Q_Read
    rw [if_neg (by norm_num [HEADER_B_ADDR, W25Q_FLASH_SIZE]), if_pos h2]
  · intro h1 h2 h3 h4 h5
    unfold FlashLog_Init
    rw [W25Q_Read_ok d HEADER_A_ADDR 44 (by omega)
      (by norm_num [HEADER_A_ADDR, W25Q_FLASH_SIZE]) h1]
    dsimp only
    rw [W25Q_Read_ok d HEADER_B_ADDR 44 (by omega)
      (by norm_num [HEADER_B_ADDR, W25Q_FLASH_SIZE]) h2]
    dsimp only
    rw [show deserializeHeader (devReadBytes d HEADER_A_ADDR 44) =
        headerAt d HEADER_A_ADDR from rfl,
      show deserializeHeader (devReadBytes d HEADER_B_ADDR 44) =
        headerAt d HEADER_B_ADDR from rfl,
      h3, h4]
    try dsimp only
    by_cases he : d.eraseFails 0 = true
    · rw [W25Q_EraseSector_fail d 0 (by norm_num [W25Q_FLASH_SIZE]) he]
      rw [FlashLog_WriteHeader_fail freshState _ (by exact h5)]
      simp
    · rw [W25Q_EraseSector_ok d 0 (by norm_num [W25Q_FLASH_SIZE])
        (by simpa using he)]
      rw [FlashLog_WriteHeader_fail freshState _ (by exact h5)]
      simp

set_option maxRecDepth 100000 in
theorem claim_C7_witness :
    (c3Dev.readFails HEADER_A_ADDR 44 = false ∧
     c3Dev.readFails HEADER_B_ADDR 44 = false ∧
     FlashLog_ValidateHeader (headerAt c3Dev HEADER_A_ADDR) = false ∧
     FlashLog_ValidateHeader (headerAt c3Dev HEADER_B_ADDR) = false ∧
     c3Dev.writeFails HEADER_B_ADDR 44 = true) ∧
    (FlashLog_Init c3Dev).1 = .errorFlash :=
  ⟨⟨rfl, rfl, by decide, by decide, rfl⟩,
    (claim_C7 c3Dev).2.2.2 rfl rfl (by decide) (by decide) rfl⟩

set_option maxRecDepth 100000 in
/-- C7 counterexample to the claim as stated: on blank flash with a
device whose sector erases fail, `Init` still returns OK — the
header-sector erase status on the fresh path is discarded, so not every
underlying erase failure yields the Flash error status. -/
theorem claim_C7_counterexample :
    c7Dev.eraseFails 0 = true ∧
    (FlashLog_Init c7Dev).1 = FlashLog_Status.ok ∧
    (FlashLog_Init c7Dev).1 ≠ FlashLog_Status.errorFlash := by
  refine ⟨rfl, ?_, ?_⟩ <;> decide

/-! ### Claim C2: record payload is written before any header write -/

theorem deserializeHeader_write_addr (h : FlashLog_Header)
    (hw : h.write_addr < U32) :
    (deserializeHeader (serializeHeader h)).write_addr = h.write_addr := by
  obtain ⟨m, v, wa, rc, sq, oa, fl, w0, w1, w2, crc⟩ := h
  exact dec32_enc wa hw

/-- The flash-operation trace of a `WriteRecord` call takes one of four
shapes: nothing; a lone (failed) erase; an optional erase followed by
the record write; or an optional erase, the record write, then the
header write. -/
theorem writeRecord_trace (st : FState) (d : Dev) (s : Sensor) (ts : Nat) :
    (FlashLog_WriteRecord st d s ts).2.2.2 = [] ∨
    (FlashLog_WriteRecord st d s ts).2.2.2 = [.erase st.write_addr] ∨
    (∃ evs0, (evs0 = ([] : List Ev) ∨ evs0 = [.erase st.write_addr]) ∧
      ((FlashLog_WriteRecord st d s ts).2.2.2 =
        evs0 ++ [.write st.write_addr
          (serializeRecord (buildRecord s st.next_sequence ts))] ∨
       (FlashLog_WriteRecord st d s ts).2.2.2 =
        evs0 ++ [.write st.write_addr
          (serializeRecord (buildRecord s st.next_sequence ts)),
          .write (pingSlotAddr (toggleActive st.active_header))
            (serializeHeader (mkHeader (advanceState (bumpSeq st))))])) := by
  by_cases hinit : st.initialized = true
  case neg =>
    left
    unfold FlashLog_WriteRecord
    rw [if_pos (by simp [Bool.not_eq_true] at hinit ⊢; exact hinit)]
  case pos =>
    have hif : ¬ (¬ st.initialized = true) := by rw [hinit]; simp
    have main : ∀ d1 evs0,
        (evs0 = ([] : List Ev) ∨ evs0 = [.erase st.write_addr]) →
        FlashLog_EraseSectorIfNeeded d st.write_addr = (.ok, d1, evs0) →
        (FlashLog_WriteRecord st d s ts).2.2.2 = [] ∨
        (FlashLog_WriteRecord st d s ts).2.2.2 = [.erase st.write_addr] ∨
        (∃ evs0, (evs0 = ([] : List Ev) ∨ evs0 = [.erase st.write_addr]) ∧
          ((FlashLog_WriteRecord st d s ts).2.2.2 =
            evs0 ++ [.write st.write_addr
              (serializeRecord (buildRecord s st.next_sequence ts))] ∨
           (FlashLog_WriteRecord st d s ts).2.2.2 =
            evs0 ++ [.write st.write_addr
              (serializeRecord (buildRecord s st.next_sequence ts)),
              .write (pingSlotAddr (toggleActive st.active_header))
                (serializeHeader (mkHeader (advanceState (bumpSeq st))))])) := by
      intro d1 evs0 hshape he
      unfold FlashLog_WriteRecord
      rw [if_neg hif, he]
      dsimp only
      rcases hW : W25Q_Write d1 st.write_addr
          (serializeRecord (buildRecord s st.next_sequence ts)) with ⟨ws, d2⟩
      cases ws
      case ok =>
        dsimp only
        by_cases hhdr :
            (advanceState (bumpSeq st)).record_count % HEADER_UPDATE_INTERVAL = 0
        · rw [if_pos hhdr]
          rcases hH : FlashLog_WriteHeader (advanceState (bumpSeq st)) d2 with
            ⟨hs, st3, d3, evh⟩
          have hevh : evh = [.write (pingSlotAddr (toggleActive st.active_header))
              (serializeHeader (mkHeader (advanceState (bumpSeq st))))] := by
            have : (FlashLog_WriteHeader (advanceState (bumpSeq st)) d2).2.2.2 =
                [.write (pingSlotAddr
                    (toggleActive (advanceState (bumpSeq st)).active_header))
                  (serializeHeader (mkHeader (advanceState (bumpSeq st))))] := by
              unfold FlashLog_WriteHeader
              rcases hw2 : W25Q_Write d2
                  (pingSlotAddr (toggleActive (advanceState (bumpSeq st)).active_header))
                  (serializeHeader (mkHeader (advanceState (bumpSeq st)))) with ⟨s2, d4⟩
              cases s2 <;> rfl
            rw [hH] at this
            exact this
          cases hs <;>
            (refine Or.inr (Or.inr ⟨evs0, hshape, Or.inr ?_⟩);
             rw [hevh];
             simp)
        · rw [if_neg hhdr]
          exact Or.inr (Or.inr ⟨evs0, hshape, Or.inl rfl⟩)
      all_goals exact Or.inr (Or.inr ⟨evs0, hshape, Or.inl rfl⟩)
    by_cases halign : st.write_addr % W25Q_SECTOR_SIZE = 0
    · by_cases hbound : st.write_addr < W25Q_FLASH_SIZE
      · by_cases hef : d.eraseFails st.write_addr = true
        · right; left
          unfold FlashLog_WriteRecord
          rw [if_neg hif, eraseIfNeeded_fail d st.write_addr halign hbound hef]
        · exact main _ [.erase st.write_addr] (Or.inr rfl)
            (eraseIfNeeded_ok d st.write_addr halign hbound
              (by simpa using hef))
      · right; left
        have hsec : st.write_addr / W25Q_SECTOR_SIZE * W25Q_SECTOR_SIZE =
            st.write_addr := Nat.div_mul_cancel (Nat.dvd_of_mod_eq_zero halign)
        unfold FlashLog_WriteRecord FlashLog_EraseSectorIfNeeded W25Q_EraseSector
        rw [if_neg hif, if_pos halign, hsec, if_pos (by omega)]
    · exact main d [] (Or.inl rfl) (eraseIfNeeded_skip d st.write_addr halign)

/-- C2: within any single `FlashLog_WriteRecord` execution on a state
whose cursor lies in the data region, every flash write targeting the
header region (addresses below `DATA_START`) occurs strictly after a
64-byte data-region write — the record payload — and the header bytes
written record a `write_addr` equal to the address just past that
payload (with wraparound), so a persisted header never points past data
that was not written earlier in the same call. -/
theorem claim_C2 (st : FState) (d : Dev) (s : Sensor) (ts : Nat)
    (hwa1 : FLASH_LOG_DATA_START ≤ st.write_addr)
    (hwa2 : st.write_addr < FLASH_LOG_DATA_END)
    (j a : Nat) (bs : List Nat)
    (hj : ((FlashLog_WriteRecord st d s ts).2.2.2).get? j = some (.write a bs))
    (hh : a < FLASH_LOG_DATA_START) :
    ∃ i wa rb, i < j ∧
      ((FlashLog_WriteRecord st d s ts).2.2.2).get? i = some (.write wa rb) ∧
      FLASH_LOG_DATA_START ≤ wa ∧ rb.length = FLASH_LOG_RECORD_SIZE ∧
      (deserializeHeader bs).write_addr =
        (if wa + FLASH_LOG_RECORD_SIZE ≥ FLASH_LOG_DATA_END then
          FLASH_LOG_DATA_START
        else wa + FLASH_LOG_RECORD_SIZE) := by
  have hwaU : (mkHeader (advanceState (bumpSeq st))).write_addr < U32 := by
    show (if st.write_addr + FLASH_LOG_RECORD_SIZE ≥ FLASH_LOG_DATA_END then
        FLASH_LOG_DATA_START else st.write_addr + FLASH_LOG_RECORD_SIZE) < U32
    have h2 := hwa2
    simp only [FLASH_LOG_DATA_START, FLASH_LOG_DATA_END, W25Q_FLASH_SIZE,
      W25Q_SECTOR_SIZE, FLASH_LOG_RECORD_SIZE, U32] at h2 ⊢
    split <;> omega
  rcases writeRecord_trace st d s ts with ht | ht | ⟨evs0, hshape, ht | ht⟩
  · rw [ht] at hj
    simp at hj
  · rw [ht] at hj
    rcases j with _ | j
    · simp at hj
    · simp at hj
  · rw [ht] at hj
    rcases hshape with rfl | rfl
    · rcases j with _ | j
      · simp at hj
        obtain ⟨rfl, -⟩ := hj
        omega
      · simp at hj
    · rcases j with _ | j
      · simp at hj
      · rcases j with _ | j
        · simp at hj
          obtain ⟨rfl, -⟩ := hj
          omega
        · simp at hj
  · rw [ht] at hj
    rcases hshape with rfl | rfl
    · rcases j with _ | j
      · simp at hj
        obtain ⟨rfl, -⟩ := hj
        omega
      · rcases j with _ | j
        · simp at hj
          obtain ⟨-, rfl⟩ := hj
          refine ⟨0, st.write_addr,
            serializeRecord (buildRecord s st.next_sequence ts),
            by omega, by simp [ht], hwa1, serializeBuildRecord_length s _ ts, ?_⟩
          rw [deserializeHeader_write_addr _ hwaU]
          rfl
        · simp at hj
    · rcases j with _ | j
      · simp at hj
      · rcases j with _ | j
        · simp at hj
          obtain ⟨rfl, -⟩ := hj
          omega
        · rcases j with _ | j
          · simp at hj
            obtain ⟨-, rfl⟩ := hj
            refine ⟨1, st.write_addr,
              serializeRecord (buildRecord s st.next_sequence ts),
              by omega, by simp [ht], hwa1, serializeBuildRecord_length s _ ts, ?_⟩
            rw [deserializeHeader_write_addr _ hwaU]
            rfl
          · simp at hj

set_option maxRecDepth 100000 in
theorem claim_C2_witness :
    (FLASH_LOG_DATA_START ≤ c2State.write_addr ∧
     c2State.write_addr < FLASH_LOG_DATA_END ∧
     ((FlashLog_WriteRecord c2State (mkDev blankMem) zeroSensor 0).2.2.2).get? 1 =
       some (.write HEADER_B_ADDR
         (serializeHeader (mkHeader (advanceState (bumpSeq c2State))))) ∧
     HEADER_B_ADDR < FLASH_LOG_DATA_START) ∧
    (∃ i wa rb, i < 1 ∧
      ((FlashLog_WriteRecord c2State (mkDev blankMem) zeroSensor 0).2.2.2).get? i =
        some (.write wa rb) ∧
      FLASH_LOG_DATA_START ≤ wa ∧ rb.length = FLASH_LOG_RECORD_SIZE ∧
      (deserializeHeader
          (serializeHeader (mkHeader (advanceState (bumpSeq c2State))))).write_addr =
        (if wa + FLASH_LOG_RECORD_SIZE ≥ FLASH_LOG_DATA_END then
          FLASH_LOG_DATA_START
        else wa + FLASH_LOG_RECORD_SIZE)) :=
  ⟨⟨by decide, by decide, by decide, by decide⟩,
    claim_C2 c2State (mkDev blankMem) zeroSensor 0 (by decide) (by decide)
      1 HEADER_B_ADDR
      (serializeHeader (mkHeader (advanceState (bumpSeq c2State))))
      (by decide) (by decide)⟩

/-! ### Memory frame lemmas -/

theorem writeBytesMem_get (mem : Nat → Nat) (addr : Nat) (bs : List Nat)
    (i : Nat) (hi : i < bs.length) :
    writeBytesMem mem addr bs (addr + i) = bs.getD i 0 := by
  unfold writeBytesMem
  rw [if_pos (by omega)]
  congr 1
  omega

theorem writeBytesMem_frame (mem : Nat → Nat) (addr : Nat) (bs : List Nat)
    (a : Nat) (h : a < addr ∨ addr + bs.length ≤ a) :
    writeBytesMem mem addr bs a = mem a := by
  unfold writeBytesMem
  rw [if_neg (by omega)]

theorem eraseSectorMem_in (mem : Nat → Nat) (sector a : Nat)
    (h : sector ≤ a ∧ a < sector + W25Q_SECTOR_SIZE) :
    eraseSectorMem mem sector a = 255 := by
  unfold eraseSectorMem
  rw [if_pos h]

theorem eraseSectorMem_out (mem : Nat → Nat) (sector a : Nat)
    (h : ¬ (sector ≤ a ∧ a < sector + W25Q_SECTOR_SIZE)) :
    eraseSectorMem mem sector a = mem a := by
  unfold eraseSectorMem
  rw [if_neg h]

/-- A read delivers a given byte list when the memory holds exactly
those bytes. -/
theorem devReadBytes_eq (d : Dev) (addr len : Nat) (bs : List Nat)
    (hlen : bs.length = len) (hb : ∀ x ∈ bs, x < 256)
    (h : ∀ i, i < len → d.mem (addr + i) = bs.getD i 0) :
    devReadBytes d addr len = bs := by
  unfold devReadBytes
  apply List.ext_getElem (by simp [hlen])
  intro i hi1 hi2
  simp only [List.getElem_map, List.getElem_range]
  have hilen : i < len := by simpa using hi1
  rw [h i hilen, List.getD_eq_getElem _ _ (by omega)]
  exact Nat.mod_eq_of_lt (hb _ (List.getElem_mem _))

/-! ### `buildRecord` well-formedness and self-verification -/

theorem int32bits_lt (i : Int) : int32bits i < U32 := by
  unfold int32bits U32
  omega

theorem int16bits_lt (i : Int) : int16bits i < 65536 := by
  unfold int16bits
  omega

theorem buildRecord_WF (s : Sensor) (seq ts : Nat) (hs : ValidSensor s)
    (hseq : seq < U32) (hts : ts < U32) : WFRecord (buildRecord s seq ts) := by
  obtain ⟨h1, h2, h3, h4, h5, h6, h7, h8, h9⟩ := hs
  refine ⟨by norm_num [buildRecord, FLASH_LOG_RECORD_MAGIC, U32], hseq, hts,
    h1, h2, h3, int32bits_lt _, int32bits_lt _, int16bits_lt _, int16bits_lt _,
    h4, h5, ?_, ?_, by norm_num [buildRecord], by norm_num [buildRecord],
    ?_, by norm_num [buildRecord], by norm_num [buildRecord], rfl,
    FlashLog_CRC32_lt _⟩
  · show (s.gnss_hdop * 10).floor.toNat < 256
    omega
  · show (if s.gnss_valid then 1 else 0) < 256
    split <;> norm_num
  · show (s.battery_voltage * 1000).floor.toNat < 65536
    omega

theorem serializeRecordBody_setCrc (r : FlashLog_Record) (x : Nat) :
    serializeRecordBody { r with crc32 := x } = serializeRecordBody r := rfl

theorem buildRecord_crc (s : Sensor) (seq ts : Nat) :
    (buildRecord s seq ts).crc32 =
      FlashLog_CRC32 (serializeRecordBody (buildRecord s seq ts)) := by
  conv_rhs => rw [buildRecord]
  rw [serializeRecordBody_setCrc]
  rfl

theorem verify_buildRecord (s : Sensor) (seq ts : Nat) :
    FlashLog_VerifyRecord (buildRecord s seq ts) = true := by
  unfold FlashLog_VerifyRecord
  rw [if_neg (by norm_num [buildRecord, FLASH_LOG_RECORD_MAGIC])]
  simp only [decide_eq_true_eq]
  exact (buildRecord_crc s seq ts).symm

/-! ### Per-field header codec extraction -/

theorem deserializeHeader_sequence (h : FlashLog_Header)
    (hw : h.sequence < U32) :
    (deserializeHeader (serializeHeader h)).sequence = h.sequence := by
  obtain ⟨m, v, wa, rc, sq, oa, fl, w0, w1, w2, crc⟩ := h
  exact dec32_enc sq hw

theorem deserializeHeader_record_count (h : FlashLog_Header)
    (hw : h.record_count < U32) :
    (deserializeHeader (serializeHeader h)).record_count = h.record_count := by
  obtain ⟨m, v, wa, rc, sq, oa, fl, w0, w1, w2, crc⟩ := h
  exact dec32_enc rc hw

/-! ### One successful `WriteRecord` on a reliable device -/

theorem writeRecord_step (st : FState) (d : Dev) (s : Sensor) (ts : Nat)
    (hinit : st.initialized = true) (hP : PerfectDev d)
    (hlo : FLASH_LOG_DATA_START ≤ st.write_addr)
    (hhi : st.write_addr + 64 ≤ FLASH_LOG_DATA_END) :
    (FlashLog_WriteRecord st d s ts).1 = .ok ∧
    ((FlashLog_WriteRecord st d s ts).2.1 = advanceState (bumpSeq st) ∨
     (FlashLog_WriteRecord st d s ts).2.1 =
       { advanceState (bumpSeq st) with
         active_header := toggleActive st.active_header }) ∧
    PerfectDev (FlashLog_WriteRecord st d s ts).2.2.1 ∧
    (∀ i, i < 64 →
      (FlashLog_WriteRecord st d s ts).2.2.1.mem (st.write_addr + i) =
        (serializeRecord (buildRecord s st.next_sequence ts)).getD i 0) ∧
    (∀ a, FLASH_LOG_DATA_START ≤ a →
      ¬ (st.write_addr ≤ a ∧ a < st.write_addr + 64) →
      (FlashLog_WriteRecord st d s ts).2.2.1.mem a =
        (if st.write_addr % W25Q_SECTOR_SIZE = 0 ∧ st.write_addr ≤ a ∧
            a < st.write_addr + W25Q_SECTOR_SIZE then 255
         else d.mem a)) := by
  obtain ⟨hr, hw, he⟩ := hP
  have hhi' : st.write_addr + 64 ≤ 2097152 := by
    simpa [FLASH_LOG_DATA_END, W25Q_FLASH_SIZE] using hhi
  have hlo' : 4096 ≤ st.write_addr := by
    simpa [FLASH_LOG_DATA_START, W25Q_SECTOR_SIZE] using hlo
  have hlen := serializeBuildRecord_length s st.next_sequence ts
  have hif : ¬ (¬ st.initialized = true) := by rw [hinit]; simp
  have hwaSize : st.write_addr < W25Q_FLASH_SIZE := by
    show st.write_addr < 2097152
    omega
  have hWok : ∀ d1 : Dev, d1.writeFails = d.writeFails →
      W25Q_Write d1 st.write_addr
        (serializeRecord (buildRecord s st.next_sequence ts)) =
      (.ok, { d1 with
        mem := (writeBytesMem d1.mem st.write_addr
          (serializeRecord (buildRecord s st.next_sequence ts))) }) := by
    intro d1 h1
    exact W25Q_Write_ok d1 _ _ (by rw [hlen]; omega)
      (by rw [hlen]; show st.write_addr + 64 ≤ 2097152; omega)
      (by rw [hlen, h1, hw])
  -- the core continuation after a (possibly skipped) successful erase
  have main : ∀ mem1 : Nat → Nat,
      FlashLog_EraseSectorIfNeeded d st.write_addr =
        (.ok, { d with mem := mem1 },
          if st.write_addr % W25Q_SECTOR_SIZE = 0 then [.erase st.write_addr]
          else []) →
      (∀ a, FLASH_LOG_DATA_START ≤ a →
        mem1 a = (if st.write_addr % W25Q_SECTOR_SIZE = 0 ∧ st.write_addr ≤ a ∧
            a < st.write_addr + W25Q_SECTOR_SIZE then 255 else d.mem a)) →
      (FlashLog_WriteRecord st d s ts).1 = .ok ∧
      ((FlashLog_WriteRecord st d s ts).2.1 = advanceState (bumpSeq st) ∨
       (FlashLog_WriteRecord st d s ts).2.1 =
         { advanceState (bumpSeq st) with
           active_header := toggleActive st.active_header }) ∧
      PerfectDev (FlashLog_WriteRecord st d s ts).2.2.1 ∧
      (∀ i, i < 64 →
        (FlashLog_WriteRecord st d s ts).2.2.1.mem (st.write_addr + i) =
          (serializeRecord (buildRecord s st.next_sequence ts)).getD i 0) ∧
      (∀ a, FLASH_LOG_DATA_START ≤ a →
        ¬ (st.write_addr ≤ a ∧ a < st.write_addr + 64) →
        (FlashLog_WriteRecord st d s ts).2.2.1.mem a =
          (if st.write_addr % W25Q_SECTOR_SIZE = 0 ∧ st.write_addr ≤ a ∧
              a < st.write_addr + W25Q_SECTOR_SIZE then 255
           else d.mem a)) := by
    intro mem1 hE hmem1
    unfold FlashLog_WriteRecord
    rw [if_neg hif, hE]
    dsimp only
    rw [hWok { d with mem := mem1 } rfl]
    dsimp only
    by_cases hhdr :
        (advanceState (bumpSeq st)).record_count % HEADER_UPDATE_INTERVAL = 0
    · rw [if_pos hhdr,
        FlashLog_WriteHeader_ok (advanceState (bumpSeq st)) _ (by rw [hw])]
      refine ⟨rfl, Or.inr rfl, ⟨hr, hw, he⟩, ?_, ?_⟩
      · intro i hi
        show writeBytesMem
            (writeBytesMem mem1 st.write_addr
              (serializeRecord (buildRecord s st.next_sequence ts)))
            (pingSlotAddr (toggleActive
              (advanceState (bumpSeq st)).active_header))
            (serializeHeader (mkHeader (advanceState (bumpSeq st))))
            (st.write_addr + i) = _
        rw [writeBytesMem_frame _ _ _ _ (by
          rw [serializeHeader_length]
          have : pingSlotAddr (toggleActive
              (advanceState (bumpSeq st)).active_header) ≤ 256 := by
            unfold pingSlotAddr HEADER_A_ADDR HEADER_B_ADDR
            split <;> omega
          omega)]
        rw [writeBytesMem_get _ _ _ i (by rw [hlen]; omega)]
      · intro a ha hnot
        show writeBytesMem
            (writeBytesMem mem1 st.write_addr
              (serializeRecord (buildRecord s st.next_sequence ts)))
            (pingSlotAddr (toggleActive
              (advanceState (bumpSeq st)).active_header))
            (serializeHeader (mkHeader (advanceState (bumpSeq st)))) a = _
        have ha' : 4096 ≤ a := by
          simpa [FLASH_LOG_DATA_START, W25Q_SECTOR_SIZE] using ha
        rw [writeBytesMem_frame _ _ _ _ (by
          rw [serializeHeader_length]
          have : pingSlotAddr (toggleActive
              (advanceState (bumpSeq st)).active_header) ≤ 256 := by
            unfold pingSlotAddr HEADER_A_ADDR HEADER_B_ADDR
            split <;> omega
          omega)]
        rw [writeBytesMem_frame _ _ _ _ (by rw [hlen]; omega)]
        exact hmem1 a ha
    · rw [if_neg hhdr]
      refine ⟨rfl, Or.inl rfl, ⟨hr, hw, he⟩, ?_, ?_⟩
      · intro i hi
        show writeBytesMem mem1 st.write_addr
            (serializeRecord (buildRecord s st.next_sequence ts))
            (st.write_addr + i) = _
        rw [writeBytesMem_get _ _ _ i (by rw [hlen]; omega)]
      · intro a ha hnot
        show writeBytesMem mem1 st.write_addr
            (serializeRecord (buildRecord s st.next_sequence ts)) a = _
        rw [writeBytesMem_frame _ _ _ _ (by rw [hlen]; omega)]
        exact hmem1 a ha
  by_cases halign : st.write_addr % W25Q_SECTOR_SIZE = 0
  · refine main (eraseSectorMem d.mem st.write_addr) ?_ ?_
    · rw [eraseIfNeeded_ok d st.write_addr halign hwaSize (by rw [he]),
        if_pos halign]
    · intro a _
      by_cases hrange : st.write_addr ≤ a ∧ a < st.write_addr + W25Q_SECTOR_SIZE
      · rw [eraseSectorMem_in _ _ _ hrange, if_pos ⟨halign, hrange⟩]
      · rw [eraseSectorMem_out _ _ _ hrange,
          if_neg (by
            intro hcon
            exact hrange ⟨hcon.2.1, hcon.2.2⟩)]
  · refine main d.mem ?_ ?_
    · rw [eraseIfNeeded_skip d st.write_addr halign, if_neg halign]
    · intro a _
      rw [if_neg (by
        intro hcon
        exact halign hcon.1)]

/-! ### Claim C4: write/read round trip -/

theorem u32sub_small (a b : Nat) (ha : a < U32) (hb : b ≤ a) :
    u32sub a b = a - b := by
  unfold u32sub
  have e : U32 = 4294967296 := by norm_num [U32]
  rw [e] at ha ⊢
  rw [Nat.mod_eq_of_lt ha, Nat.mod_eq_of_lt (by omega : b < 4294967296)]
  omega

/-- C4: on an initialized, consistent log over a reliable device, a
`WriteRecord` succeeds, an immediate `ReadRecord 0` (reading exactly the
address the record was written to) returns precisely the record
serialized from the sensor input — magic, sequence, timestamp, and the
sensor fields under their fixed scalings — and that record passes
`FlashLog_VerifyRecord`. -/
theorem claim_C4 (st : FState) (d : Dev) (s : Sensor) (ts : Nat)
    (hinit : st.initialized = true)
    (hseq : st.next_sequence = st.record_count)
    (hwa : st.write_addr =
      FLASH_LOG_DATA_START + st.record_count % FLASH_LOG_MAX_RECORDS * 64)
    (hcount : st.record_count + 1 < U32)
    (hts : ts < U32)
    (hs : ValidSensor s)
    (hP : PerfectDev d) :
    (FlashLog_WriteRecord st d s ts).1 = .ok ∧
    FlashLog_ReadRecord (FlashLog_WriteRecord st d s ts).2.1
        (FlashLog_WriteRecord st d s ts).2.2.1 0 =
      (.ok, some (buildRecord s st.next_sequence ts),
       [.read st.write_addr FLASH_LOG_RECORD_SIZE]) ∧
    FlashLog_VerifyRecord (buildRecord s st.next_sequence ts) = true ∧
    (buildRecord s st.next_sequence ts).magic = FLASH_LOG_RECORD_MAGIC ∧
    (buildRecord s st.next_sequence ts).sequence = st.next_sequence ∧
    (buildRecord s st.next_sequence ts).timestamp = ts ∧
    (buildRecord s st.next_sequence ts).pressure = s.pressure ∧
    (buildRecord s st.next_sequence ts).temperature = s.temperature ∧
    (buildRecord s st.next_sequence ts).humidity = s.humidity ∧
    (buildRecord s st.next_sequence ts).latitude = int32bits s.latitude ∧
    (buildRecord s st.next_sequence ts).longitude = int32bits s.longitude ∧
    (buildRecord s st.next_sequence ts).altitude_gps = int16bits s.altitudeGps ∧
    (buildRecord s st.next_sequence ts).altitude_bar = int16bits s.altitudeBar ∧
    (buildRecord s st.next_sequence ts).satellites = s.satellites ∧
    (buildRecord s st.next_sequence ts).gnss_fix_quality = s.gnss_fix_quality ∧
    (buildRecord s st.next_sequence ts).gnss_hdop_x10 =
      (s.gnss_hdop * 10).floor.toNat ∧
    (buildRecord s st.next_sequence ts).gnss_valid =
      (if s.gnss_valid then 1 else 0) ∧
    (buildRecord s st.next_sequence ts).battery_mv =
      (s.battery_voltage * 1000).floor.toNat := by
  have hMAXpos : 0 < FLASH_LOG_MAX_RECORDS := by
    norm_num [FLASH_LOG_MAX_RECORDS, FLASH_LOG_DATA_START, FLASH_LOG_DATA_END,
      W25Q_FLASH_SIZE, W25Q_SECTOR_SIZE, FLASH_LOG_RECORD_SIZE]
  have hmodlt : st.record_count % FLASH_LOG_MAX_RECORDS < FLASH_LOG_MAX_RECORDS :=
    Nat.mod_lt _ hMAXpos
  have hMAXval : FLASH_LOG_MAX_RECORDS = 32704 := by
    norm_num [FLASH_LOG_MAX_RECORDS, FLASH_LOG_DATA_START, FLASH_LOG_DATA_END,
      W25Q_FLASH_SIZE, W25Q_SECTOR_SIZE, FLASH_LOG_RECORD_SIZE]
  have hDSval : FLASH_LOG_DATA_START = 4096 := by
    norm_num [FLASH_LOG_DATA_START, W25Q_SECTOR_SIZE]
  have hlo : FLASH_LOG_DATA_START ≤ st.write_addr := by omega
  have hhi : st.write_addr + 64 ≤ FLASH_LOG_DATA_END := by
    have : FLASH_LOG_DATA_END = 2097152 := by
      norm_num [FLASH_LOG_DATA_END, W25Q_FLASH_SIZE]
    omega
  obtain ⟨hok, hstate, hP', hrec, -⟩ :=
    writeRecord_step st d s ts hinit hP hlo hhi
  have hcountlt : st.record_count < U32 := by omega
  have hWF : WFRecord (buildRecord s st.next_sequence ts) :=
    buildRecord_WF s st.next_sequence ts hs (by omega) hts
  have hbytes :
      devReadBytes (FlashLog_WriteRecord st d s ts).2.2.1 st.write_addr 64 =
        serializeRecord (buildRecord s st.next_sequence ts) :=
    devReadBytes_eq _ _ _ _ (serializeBuildRecord_length s _ ts)
      (serializeRecord_bytes_lt _) hrec
  have readL : ∀ st' : FState, st'.initialized = true →
      st'.next_sequence = st.record_count + 1 →
      st'.record_count = st.record_count + 1 →
      FlashLog_ReadRecord st' (FlashLog_WriteRecord st d s ts).2.2.1 0 =
        (.ok, some (buildRecord s st.next_sequence ts),
         [.read st.write_addr FLASH_LOG_RECORD_SIZE]) := by
    intro st' h1 h2 h3
    unfold FlashLog_ReadRecord
    rw [if_neg (by rw [h1]; simp)]
    have havail : 0 < FlashLog_GetAvailableRecords st' := by
      unfold FlashLog_GetAvailableRecords
      rw [h1]
      simp only [Bool.true_eq_false, not_true_eq_false, if_false, h3]
      split <;> omega
    rw [if_neg (by omega)]
    have hidx : u32sub (u32sub st'.next_sequence 1) 0 = st.record_count := by
      rw [h2]
      rw [u32sub_small (st.record_count + 1) 1 (by omega) (by omega)]
      rw [u32sub_small (st.record_count + 1 - 1) 0 (by omega) (by omega)]
      omega
    rw [hidx]
    have haddr : FlashLog_GetRecordAddress st.record_count = st.write_addr := by
      unfold FlashLog_GetRecordAddress FLASH_LOG_RECORD_SIZE
      omega
    rw [haddr]
    rw [show FLASH_LOG_RECORD_SIZE = 64 from rfl]
    rw [W25Q_Read_ok _ st.write_addr 64 (by omega)
      (by show st.write_addr + 64 ≤ 2097152
          have : FLASH_LOG_DATA_END = 2097152 := by
            norm_num [FLASH_LOG_DATA_END, W25Q_FLASH_SIZE]
          omega)
      (by rw [hP'.1])]
    dsimp only
    rw [hbytes, deserialize_serializeRecord _ hWF, verify_buildRecord]
    simp
  refine ⟨hok, ?_, verify_buildRecord s _ ts, rfl, rfl, rfl, rfl, rfl, rfl,
    rfl, rfl, rfl, rfl, rfl, rfl, rfl, rfl, rfl⟩
  rcases hstate with h' | h'
  · rw [h']
    refine readL _ hinit ?_ ?_
    · show (st.next_sequence + 1) % U32 = st.record_count + 1
      rw [hseq]
      exact Nat.mod_eq_of_lt hcount
    · show (st.record_count + 1) % U32 = st.record_count + 1
      exact Nat.mod_eq_of_lt hcount
  · rw [h']
    refine readL _ hinit ?_ ?_
    · show (st.next_sequence + 1) % U32 = st.record_count + 1
      rw [hseq]
      exact Nat.mod_eq_of_lt hcount
    · show (st.record_count + 1) % U32 = st.record_count + 1
      exact Nat.mod_eq_of_lt hcount

theorem zeroSensor_valid : ValidSensor zeroSensor := by
  refine ⟨?_, ?_, ?_, ?_, ?_, ?_, ?_, ?_, ?_⟩ <;>
    norm_num [zeroSensor, U32] <;>
    rw [show ((0 : Rat).floor) = 0 from rfl] <;>
    norm_num

set_option maxRecDepth 100000 in
theorem claim_C4_witness :
    (c5Start.initialized = true ∧
     c5Start.next_sequence = c5Start.record_count ∧
     c5Start.write_addr = FLASH_LOG_DATA_START +
       c5Start.record_count % FLASH_LOG_MAX_RECORDS * 64 ∧
     c5Start.record_count + 1 < U32 ∧ (0 : Nat) < U32 ∧
     ValidSensor zeroSensor ∧ PerfectDev (mkDev blankMem)) ∧
    ((FlashLog_WriteRecord c5Start (mkDev blankMem) zeroSensor 0).1 = .ok ∧
     FlashLog_ReadRecord
         (FlashLog_WriteRecord c5Start (mkDev blankMem) zeroSensor 0).2.1
         (FlashLog_WriteRecord c5Start (mkDev blankMem) zeroSensor 0).2.2.1 0 =
       (.ok, some (buildRecord zeroSensor c5Start.next_sequence 0),
        [.read c5Start.write_addr FLASH_LOG_RECORD_SIZE]) ∧
     FlashLog_VerifyRecord (buildRecord zeroSensor c5Start.next_sequence 0) =
       true) := by
  have h := claim_C4 c5Start (mkDev blankMem) zeroSensor 0 rfl rfl
    (by decide) (by decide) (by decide) zeroSensor_valid ⟨rfl, rfl, rfl⟩
  exact ⟨⟨rfl, rfl, by decide, by decide, by decide, zeroSensor_valid,
    ⟨rfl, rfl, rfl⟩⟩, h.1, h.2.1, h.2.2.1⟩

/-! ### Claim C5: LIFO reads over a run of writes -/

theorem runWrites_succ (s : Sensor) (ts : Nat → Nat) (n : Nat)
    (sys : FState × Dev) :
    runWrites s ts (n + 1) sys =
      ((FlashLog_WriteRecord (runWrites s ts n sys).1
          (runWrites s ts n sys).2 s (ts n)).2.1,
       (FlashLog_WriteRecord (runWrites s ts n sys).1
          (runWrites s ts n sys).2 s (ts n)).2.2.1) := rfl

theorem runWrites_succ_fst (s : Sensor) (ts : Nat → Nat) (n : Nat)
    (sys : FState × Dev) :
    (runWrites s ts (n + 1) sys).1 =
      (FlashLog_WriteRecord (runWrites s ts n sys).1
        (runWrites s ts n sys).2 s (ts n)).2.1 := rfl

theorem runWrites_succ_snd (s : Sensor) (ts : Nat → Nat) (n : Nat)
    (sys : FState × Dev) :
    (runWrites s ts (n + 1) sys).2 =
      (FlashLog_WriteRecord (runWrites s ts n sys).1
        (runWrites s ts n sys).2 s (ts n)).2.2.1 := rfl

theorem c5Start_inv (s : Sensor) (ts : Nat → Nat) :
    WriteRunInv s ts 0 (c5Start, mkDev blankMem) := by
  unfold WriteRunInv
  refine ⟨rfl, ?_, rfl, rfl, ⟨rfl, rfl, rfl⟩, ?_, ?_⟩
  · show FLASH_LOG_DATA_START =
      FLASH_LOG_DATA_START + 0 % FLASH_LOG_MAX_RECORDS * 64
    simp
  · intro j hj
    exact absurd hj (Nat.not_lt_zero j)
  · intro a _ _
    rfl

theorem writeRun_inv (s : Sensor) (ts : Nat → Nat) (sys0 : FState × Dev)
    (h0 : WriteRunInv s ts 0 sys0) :
    ∀ n, n ≤ FLASH_LOG_MAX_RECORDS →
      WriteRunInv s ts n (runWrites s ts n sys0) ∧
      ∀ m, m < n →
        (FlashLog_WriteRecord (runWrites s ts m sys0).1
            (runWrites s ts m sys0).2 s (ts m)).1 = .ok := by
  have hMAX : FLASH_LOG_MAX_RECORDS = 32704 := by
    norm_num [FLASH_LOG_MAX_RECORDS, FLASH_LOG_DATA_START, FLASH_LOG_DATA_END,
      FLASH_LOG_RECORD_SIZE, W25Q_SECTOR_SIZE, W25Q_FLASH_SIZE]
  have hDS : FLASH_LOG_DATA_START = 4096 := by
    norm_num [FLASH_LOG_DATA_START, W25Q_SECTOR_SIZE]
  have hEND : FLASH_LOG_DATA_END = 2097152 := by
    norm_num [FLASH_LOG_DATA_END, W25Q_FLASH_SIZE]
  have hU : U32 = 4294967296 := by norm_num [U32]
  intro n
  induction n with
  | zero =>
    intro _
    exact ⟨h0, fun m hm => absurd hm (Nat.not_lt_zero m)⟩
  | succ n ih =>
    intro hn
    rw [hMAX] at hn
    have hIH := ih (by rw [hMAX]; omega)
    unfold WriteRunInv at hIH
    obtain ⟨⟨I1, I2, I3, I4, I5, I6, I7⟩, hoks⟩ := hIH
    have hmod : n % FLASH_LOG_MAX_RECORDS = n := by rw [hMAX]; omega
    have hwan : (runWrites s ts n sys0).1.write_addr =
        FLASH_LOG_DATA_START + n * 64 := by rw [I2, hmod]
    obtain ⟨hok, hstate, hP', hrec, hframe⟩ :=
      writeRecord_step (runWrites s ts n sys0).1 (runWrites s ts n sys0).2
        s (ts n) I1 I5 (by omega) (by omega)
    refine ⟨?_, ?_⟩
    · have hwa' : (advanceState (bumpSeq (runWrites s ts n sys0).1)).write_addr =
          FLASH_LOG_DATA_START + (n + 1) % FLASH_LOG_MAX_RECORDS * 64 := by
        show (if (runWrites s ts n sys0).1.write_addr + FLASH_LOG_RECORD_SIZE ≥
              FLASH_LOG_DATA_END then FLASH_LOG_DATA_START
            else (runWrites s ts n sys0).1.write_addr + FLASH_LOG_RECORD_SIZE) =
          FLASH_LOG_DATA_START + (n + 1) % FLASH_LOG_MAX_RECORDS * 64
        rw [hwan, hMAX, hDS, hEND, show FLASH_LOG_RECORD_SIZE = 64 from rfl]
        split <;> omega
      have hcount' :
          (advanceState (bumpSeq (runWrites s ts n sys0).1)).record_count =
            n + 1 := by
        show ((runWrites s ts n sys0).1.record_count + 1) % U32 = n + 1
        rw [I3, hU]
        omega
      have hseq' :
          (advanceState (bumpSeq (runWrites s ts n sys0).1)).next_sequence =
            n + 1 := by
        show ((runWrites s ts n sys0).1.next_sequence + 1) % U32 = n + 1
        rw [I4, hU]
        omega
      rw [runWrites_succ]
      unfold WriteRunInv
      dsimp only
      refine ⟨?_, ?_, ?_, ?_, ?_, ?_, ?_⟩
      · rcases hstate with h' | h' <;> rw [h'] <;> exact I1
      · rcases hstate with h' | h' <;> rw [h'] <;> exact hwa'
      · rcases hstate with h' | h' <;> rw [h'] <;> exact hcount'
      · rcases hstate with h' | h' <;> rw [h'] <;> exact hseq'
      · exact hP'
      · intro j hj i hi
        by_cases hjn : j = n
        · subst hjn
          have ha : FLASH_LOG_DATA_START + j * 64 + i =
              (runWrites s ts j sys0).1.write_addr + i := by rw [hwan]
          rw [ha, hrec i hi, I4]
        · have hjlt : j < n := by omega
          rw [hframe (FLASH_LOG_DATA_START + j * 64 + i) (by omega)
            (by rw [hwan]; omega)]
          rw [if_neg (fun hc => absurd hc.2.1 (by rw [hwan]; omega))]
          exact I6 j hjlt i hi
      · intro a ha1 ha2
        rw [hframe a (by omega) (by rw [hwan]; omega)]
        split
        · rfl
        · exact I7 a (by omega) ha2
    · intro m hm
      rcases Nat.lt_or_ge m n with h | h
      · exact hoks m h
      · have hmn : m = n := by omega
        subst hmn
        exact hok

/-- C5 (amended): from a fresh empty log on a reliable device, a run of
`n ≤ MAX_RECORDS` `WriteRecord` calls (carrying sequence numbers
`0..n-1`) all succeed, and `FlashLog_ReadRecord offset` then returns the
record with sequence `n - 1 - offset` for every `offset < n`, reading it
from `DATA_START + ((next_sequence - 1 - offset) mod MAX_RECORDS) * 64`
and validating it by magic and CRC.  The unrestricted claim (every
`offset < min (k+1) MAX_RECORDS` after `k+1` writes) is false once the
log wraps: the sector erase ahead of the wrapped cursor destroys 63
still-addressable records (see the counterexample). -/
theorem claim_C5 (s : Sensor) (ts : Nat → Nat) (sys0 : FState × Dev)
    (h0 : WriteRunInv s ts 0 sys0) (hs : ValidSensor s)
    (hts : ∀ m, ts m < U32) (n offset : Nat)
    (hn : n ≤ FLASH_LOG_MAX_RECORDS) (hoff : offset < n) :
    (∀ m, m < n →
      (FlashLog_WriteRecord (runWrites s ts m sys0).1
          (runWrites s ts m sys0).2 s (ts m)).1 = .ok) ∧
    FlashLog_ReadRecord (runWrites s ts n sys0).1
        (runWrites s ts n sys0).2 offset =
      (.ok, some (buildRecord s (n - 1 - offset) (ts (n - 1 - offset))),
       [.read (FLASH_LOG_DATA_START +
          (n - 1 - offset) % FLASH_LOG_MAX_RECORDS * FLASH_LOG_RECORD_SIZE)
          FLASH_LOG_RECORD_SIZE]) := by
  have hMAX : FLASH_LOG_MAX_RECORDS = 32704 := by
    norm_num [FLASH_LOG_MAX_RECORDS, FLASH_LOG_DATA_START, FLASH_LOG_DATA_END,
      FLASH_LOG_RECORD_SIZE, W25Q_SECTOR_SIZE, W25Q_FLASH_SIZE]
  have hDS : FLASH_LOG_DATA_START = 4096 := by
    norm_num [FLASH_LOG_DATA_START, W25Q_SECTOR_SIZE]
  have hFS : W25Q_FLASH_SIZE = 2097152 := by norm_num [W25Q_FLASH_SIZE]
  have hU : U32 = 4294967296 := by norm_num [U32]
  have hI := writeRun_inv s ts sys0 h0 n hn
  rw [hMAX] at hn
  unfold WriteRunInv at hI
  obtain ⟨⟨I1, I2, I3, I4, I5, I6, I7⟩, hoks⟩ := hI
  refine ⟨hoks, ?_⟩
  unfold FlashLog_ReadRecord
  rw [show FLASH_LOG_RECORD_SIZE = 64 from rfl]
  rw [if_neg (by rw [I1]; simp)]
  have havail : FlashLog_GetAvailableRecords (runWrites s ts n sys0).1 = n := by
    unfold FlashLog_GetAvailableRecords
    rw [if_neg (by rw [I1]; simp), I3, if_pos (by rw [hMAX]; omega)]
  rw [if_neg (by rw [havail]; omega)]
  have hidx : u32sub (u32sub (runWrites s ts n sys0).1.next_sequence 1) offset =
      n - 1 - offset := by
    rw [I4]
    rw [u32sub_small n 1 (by rw [hU]; omega) (by omega)]
    rw [u32sub_small (n - 1) offset (by rw [hU]; omega) (by omega)]
  rw [hidx]
  have hjmod : (n - 1 - offset) % FLASH_LOG_MAX_RECORDS = n - 1 - offset := by
    rw [hMAX]; omega
  have haddr : FlashLog_GetRecordAddress (n - 1 - offset) =
      FLASH_LOG_DATA_START + (n - 1 - offset) * 64 := by
    unfold FlashLog_GetRecordAddress
    rw [hjmod]
    rfl
  rw [haddr, hjmod]
  rw [W25Q_Read_ok (runWrites s ts n sys0).2
    (FLASH_LOG_DATA_START + (n - 1 - offset) * 64) 64 (by norm_num)
    (by rw [hDS, hFS]; omega) (by rw [I5.1])]
  dsimp only
  have hbytes : devReadBytes (runWrites s ts n sys0).2
      (FLASH_LOG_DATA_START + (n - 1 - offset) * 64) 64 =
      serializeRecord (buildRecord s (n - 1 - offset) (ts (n - 1 - offset))) := by
    apply devReadBytes_eq
    · exact serializeBuildRecord_length s _ _
    · exact serializeRecord_bytes_lt _
    · intro i hi
      exact I6 (n - 1 - offset) (by omega) i hi
  have hWF : WFRecord (buildRecord s (n - 1 - offset) (ts (n - 1 - offset))) :=
    buildRecord_WF s _ _ hs (by rw [hU]; omega) (hts _)
  rw [hbytes, deserialize_serializeRecord _ hWF, verify_buildRecord]
  simp

theorem claim_C5_witness :
    (WriteRunInv zeroSensor (fun _ => 0) 0 (c5Start, mkDev blankMem) ∧
     ValidSensor zeroSensor ∧ (∀ m : Nat, (fun _ => (0 : Nat)) m < U32) ∧
     1 ≤ FLASH_LOG_MAX_RECORDS ∧ (0 : Nat) < 1) ∧
    FlashLog_ReadRecord
        (runWrites zeroSensor (fun _ => 0) 1 (c5Start, mkDev blankMem)).1
        (runWrites zeroSensor (fun _ => 0) 1 (c5Start, mkDev blankMem)).2 0 =
      (.ok, some (buildRecord zeroSensor 0 0),
       [.read (FLASH_LOG_DATA_START +
          0 % FLASH_LOG_MAX_RECORDS * FLASH_LOG_RECORD_SIZE)
          FLASH_LOG_RECORD_SIZE]) := by
  have h := claim_C5 zeroSensor (fun _ => 0) (c5Start, mkDev blankMem)
    (c5Start_inv zeroSensor (fun _ => 0)) zeroSensor_valid
    (fun m => by norm_num [U32]) 1 0 (by decide) (by decide)
  exact ⟨⟨c5Start_inv zeroSensor (fun _ => 0), zeroSensor_valid,
    fun m => by norm_num [U32], by decide, by decide⟩, h.2⟩

set_option maxRecDepth 8000 in
theorem verifyBlank64 :
    FlashLog_VerifyRecord (deserializeRecord (List.replicate 64 255)) =
      false := by decide

/-- The read of the slot just past a wrapped cursor fails: on a state
whose cursor has wrapped back to `DATA_START` with
`record_count = next_sequence = MAX_RECORDS`, one more write erases the
first data sector and `ReadRecord (MAX_RECORDS - 1)` — which targets
slot 1 — finds only `0xFF` bytes and reports the CRC error. -/
theorem wrapRead_errorCRC (st : FState) (d : Dev)
    (hinit : st.initialized = true)
    (hwan : st.write_addr = FLASH_LOG_DATA_START)
    (hcount : st.record_count = FLASH_LOG_MAX_RECORDS)
    (hnseq : st.next_sequence = FLASH_LOG_MAX_RECORDS)
    (hP : PerfectDev d) :
    (FlashLog_ReadRecord (FlashLog_WriteRecord st d zeroSensor 0).2.1
        (FlashLog_WriteRecord st d zeroSensor 0).2.2.1
        (FLASH_LOG_MAX_RECORDS - 1)).1 = .errorCRC := by
  have hMAX : FLASH_LOG_MAX_RECORDS = 32704 := by
    norm_num [FLASH_LOG_MAX_RECORDS, FLASH_LOG_DATA_START, FLASH_LOG_DATA_END,
      FLASH_LOG_RECORD_SIZE, W25Q_SECTOR_SIZE, W25Q_FLASH_SIZE]
  have hDS : FLASH_LOG_DATA_START = 4096 := by
    norm_num [FLASH_LOG_DATA_START, W25Q_SECTOR_SIZE]
  have hEND : FLASH_LOG_DATA_END = 2097152 := by
    norm_num [FLASH_LOG_DATA_END, W25Q_FLASH_SIZE]
  have hFS : W25Q_FLASH_SIZE = 2097152 := by norm_num [W25Q_FLASH_SIZE]
  have hSS : W25Q_SECTOR_SIZE = 4096 := by norm_num [W25Q_SECTOR_SIZE]
  have hU : U32 = 4294967296 := by norm_num [U32]
  obtain ⟨hok, hstate, hP', hrec, hframe⟩ :=
    writeRecord_step st d zeroSensor 0 hinit hP hwan.ge
      (by rw [hwan, hDS, hEND]; norm_num)
  have hinit1 : (FlashLog_WriteRecord st d zeroSensor 0).2.1.initialized =
      true := by
    rcases hstate with h' | h' <;> rw [h'] <;> exact hinit
  have hnseq1 :
      (FlashLog_WriteRecord st d zeroSensor 0).2.1.next_sequence =
        FLASH_LOG_MAX_RECORDS + 1 := by
    rcases hstate with h' | h' <;> rw [h'] <;>
      (show (st.next_sequence + 1) % U32 = FLASH_LOG_MAX_RECORDS + 1;
       rw [hnseq, hMAX, hU])
  have hcount1 :
      (FlashLog_WriteRecord st d zeroSensor 0).2.1.record_count =
        FLASH_LOG_MAX_RECORDS + 1 := by
    rcases hstate with h' | h' <;> rw [h'] <;>
      (show (st.record_count + 1) % U32 = FLASH_LOG_MAX_RECORDS + 1;
       rw [hcount, hMAX, hU])
  unfold FlashLog_ReadRecord
  rw [show FLASH_LOG_RECORD_SIZE = 64 from rfl]
  rw [if_neg (by rw [hinit1]; simp)]
  have havail : FlashLog_GetAvailableRecords
      (FlashLog_WriteRecord st d zeroSensor 0).2.1 =
      FLASH_LOG_MAX_RECORDS := by
    unfold FlashLog_GetAvailableRecords
    rw [if_neg (by rw [hinit1]; simp), hcount1, if_neg (by omega)]
  rw [if_neg (by rw [havail, hMAX]; omega)]
  have hidx : u32sub (u32sub
      (FlashLog_WriteRecord st d zeroSensor 0).2.1.next_sequence 1)
      (FLASH_LOG_MAX_RECORDS - 1) = 1 := by
    rw [hnseq1]
    rw [u32sub_small (FLASH_LOG_MAX_RECORDS + 1) 1
      (by rw [hMAX, hU]; norm_num) (by omega)]
    rw [u32sub_small (FLASH_LOG_MAX_RECORDS + 1 - 1) (FLASH_LOG_MAX_RECORDS - 1)
      (by rw [hMAX, hU]; norm_num) (by omega)]
    rw [hMAX]
  have haddr : FlashLog_GetRecordAddress 1 = FLASH_LOG_DATA_START + 64 := by
    unfold FlashLog_GetRecordAddress
    rw [hMAX]
    norm_num [FLASH_LOG_RECORD_SIZE]
  rw [hidx, haddr]
  rw [W25Q_Read_ok (FlashLog_WriteRecord st d zeroSensor 0).2.2.1
    (FLASH_LOG_DATA_START + 64) 64 (by norm_num)
    (by rw [hDS, hFS]; norm_num) (by rw [hP'.1])]
  dsimp only
  have hbytes : devReadBytes (FlashLog_WriteRecord st d zeroSensor 0).2.2.1
      (FLASH_LOG_DATA_START + 64) 64 = List.replicate 64 255 := by
    apply devReadBytes_eq
    · simp
    · intro x hx
      rw [List.eq_of_mem_replicate hx]
      norm_num
    · intro i hi
      rw [hframe (FLASH_LOG_DATA_START + 64 + i) (by omega)
        (by rw [hwan]; omega)]
      rw [if_pos ⟨by rw [hwan, hDS, hSS], by rw [hwan]; omega,
        by rw [hwan, hSS]; omega⟩]
      rw [List.getD_eq_getElem _ _ (by simpa using hi)]
      rw [List.getElem_replicate]
  rw [hbytes, verifyBlank64]
  simp

/-- C5 counterexample: after `MAX_RECORDS + 1` successful writes from a
fresh empty log, the offset `MAX_RECORDS - 1` is still below
`min (k+1) MAX_RECORDS`, yet `ReadRecord` at that offset returns the
CRC error status instead of the record with sequence 1: the wrapping
write erased the first data sector, destroying records 1..63. -/
theorem claim_C5_counterexample :
    FLASH_LOG_MAX_RECORDS - 1 <
      min (FLASH_LOG_MAX_RECORDS + 1) FLASH_LOG_MAX_RECORDS ∧
    (∀ m, m < FLASH_LOG_MAX_RECORDS + 1 →
      (FlashLog_WriteRecord
          (runWrites zeroSensor (fun _ => 0) m (c5Start, mkDev blankMem)).1
          (runWrites zeroSensor (fun _ => 0) m (c5Start, mkDev blankMem)).2
          zeroSensor 0).1 = .ok) ∧
    (FlashLog_ReadRecord
        (runWrites zeroSensor (fun _ => 0) (FLASH_LOG_MAX_RECORDS + 1)
          (c5Start, mkDev blankMem)).1
        (runWrites zeroSensor (fun _ => 0) (FLASH_LOG_MAX_RECORDS + 1)
          (c5Start, mkDev blankMem)).2
        (FLASH_LOG_MAX_RECORDS - 1)).1 = .errorCRC := by
  have hMAX : FLASH_LOG_MAX_RECORDS = 32704 := by
    norm_num [FLASH_LOG_MAX_RECORDS, FLASH_LOG_DATA_START, FLASH_LOG_DATA_END,
      FLASH_LOG_RECORD_SIZE, W25Q_SECTOR_SIZE, W25Q_FLASH_SIZE]
  have hDS : FLASH_LOG_DATA_START = 4096 := by
    norm_num [FLASH_LOG_DATA_START, W25Q_SECTOR_SIZE]
  have hEND : FLASH_LOG_DATA_END = 2097152 := by
    norm_num [FLASH_LOG_DATA_END, W25Q_FLASH_SIZE]
  have hI := writeRun_inv zeroSensor (fun _ => 0) (c5Start, mkDev blankMem)
    (c5Start_inv zeroSensor (fun _ => 0)) FLASH_LOG_MAX_RECORDS (le_refl _)
  unfold WriteRunInv at hI
  obtain ⟨⟨I1, I2, I3, I4, I5, I6, I7⟩, hoks⟩ := hI
  set RM := runWrites zeroSensor (fun _ => 0) FLASH_LOG_MAX_RECORDS
    (c5Start, mkDev blankMem) with hRM
  have hwan : RM.1.write_addr = FLASH_LOG_DATA_START := by
    rw [I2, Nat.mod_self]
    norm_num
  obtain ⟨hok, -, -, -, -⟩ :=
    writeRecord_step RM.1 RM.2 zeroSensor 0 I1 I5 hwan.ge
      (by rw [hwan, hDS, hEND]; norm_num)
  refine ⟨by rw [hMAX]; omega, ?_, ?_⟩
  · intro m hm
    rcases Nat.lt_or_ge m FLASH_LOG_MAX_RECORDS with h | h
    · exact hoks m h
    · have hmn : m = FLASH_LOG_MAX_RECORDS := by omega
      subst hmn
      exact hok
  · rw [runWrites_succ_fst, runWrites_succ_snd, ← hRM]
    exact wrapRead_errorCRC RM.1 RM.2 I1 hwan I3 I4 I5

/-! ### Claim C10: the engine-state invariant under successful steps -/

theorem serializeHeaderBody_setCrc (h : FlashLog_Header) (x : Nat) :
    serializeHeaderBody { h with crc32 := x } = serializeHeaderBody h := rfl

theorem mkHeader_crc (st : FState) :
    (mkHeader st).crc32 =
      FlashLog_CRC32 (serializeHeaderBody (mkHeader st)) := by
  conv_rhs => rw [mkHeader]
  rw [serializeHeaderBody_setCrc]
  rfl

theorem mkHeader_valid (st : FState) :
    FlashLog_ValidateHeader (mkHeader st) = true := by
  unfold FlashLog_ValidateHeader
  rw [if_neg (by
    show ¬ (mkHeader st).magic ≠ FLASH_LOG_HEADER_MAGIC
    rw [show (mkHeader st).magic = FLASH_LOG_HEADER_MAGIC from rfl]
    simp)]
  rw [if_neg (by
    show ¬ (mkHeader st).version ≠ FLASH_LOG_HEADER_VERSION
    rw [show (mkHeader st).version = FLASH_LOG_HEADER_VERSION from rfl]
    simp)]
  simp only [decide_eq_true_eq]
  exact (mkHeader_crc st).symm

theorem mkHeader_WF (st : FState) (h : CounterOK st) :
    WFHeader (mkHeader st) := by
  obtain ⟨h1, h2, n, hwa, hrc⟩ := h
  have hMAX : FLASH_LOG_MAX_RECORDS = 32704 := by
    norm_num [FLASH_LOG_MAX_RECORDS, FLASH_LOG_DATA_START, FLASH_LOG_DATA_END,
      FLASH_LOG_RECORD_SIZE, W25Q_SECTOR_SIZE, W25Q_FLASH_SIZE]
  have hDS : FLASH_LOG_DATA_START = 4096 := by
    norm_num [FLASH_LOG_DATA_START, W25Q_SECTOR_SIZE]
  have hU : U32 = 4294967296 := by norm_num [U32]
  refine ⟨?_, ?_, ?_, ?_, ?_, h2, ?_, ?_, ?_, ?_, ?_⟩
  · show FLASH_LOG_HEADER_MAGIC < U32
    norm_num [FLASH_LOG_HEADER_MAGIC, U32]
  · show FLASH_LOG_HEADER_VERSION < U32
    norm_num [FLASH_LOG_HEADER_VERSION, U32]
  · show st.write_addr < U32
    rw [hwa, hDS, hMAX, hU]
    have := Nat.mod_lt n (show 0 < 32704 by norm_num)
    omega
  · show st.record_count < U32
    rw [hrc]
    exact Nat.mod_lt _ (by norm_num [U32])
  · show st.record_count < U32
    rw [hrc]
    exact Nat.mod_lt _ (by norm_num [U32])
  · show (0 : Nat) < U32
    norm_num [U32]
  · show (0 : Nat) < U32
    norm_num [U32]
  · show (0 : Nat) < U32
    norm_num [U32]
  · show (0 : Nat) < U32
    norm_num [U32]
  · show FlashLog_CRC32 _ < U32
    exact FlashLog_CRC32_lt _

set_option maxRecDepth 8000 in
theorem blankHeader_invalid :
    FlashLog_ValidateHeader (deserializeHeader (List.replicate 44 255)) =
      false := by decide

/-- Counter consistency is preserved by the post-write state update. -/
theorem counterOK_advance (st : FState) (h : CounterOK st) :
    CounterOK (advanceState (bumpSeq st)) := by
  obtain ⟨h1, h2, n, hwa, hrc⟩ := h
  have hMAX : FLASH_LOG_MAX_RECORDS = 32704 := by
    norm_num [FLASH_LOG_MAX_RECORDS, FLASH_LOG_DATA_START, FLASH_LOG_DATA_END,
      FLASH_LOG_RECORD_SIZE, W25Q_SECTOR_SIZE, W25Q_FLASH_SIZE]
  have hDS : FLASH_LOG_DATA_START = 4096 := by
    norm_num [FLASH_LOG_DATA_START, W25Q_SECTOR_SIZE]
  have hEND : FLASH_LOG_DATA_END = 2097152 := by
    norm_num [FLASH_LOG_DATA_END, W25Q_FLASH_SIZE]
  have hU : U32 = 4294967296 := by norm_num [U32]
  have hwa' : (advanceState (bumpSeq st)).write_addr =
      FLASH_LOG_DATA_START + (n + 1) % FLASH_LOG_MAX_RECORDS * 64 := by
    show (if st.write_addr + FLASH_LOG_RECORD_SIZE ≥ FLASH_LOG_DATA_END
        then FLASH_LOG_DATA_START
        else st.write_addr + FLASH_LOG_RECORD_SIZE) =
      FLASH_LOG_DATA_START + (n + 1) % FLASH_LOG_MAX_RECORDS * 64
    rw [hwa, hMAX, hDS, hEND, show FLASH_LOG_RECORD_SIZE = 64 from rfl]
    split <;> omega
  refine ⟨?_, ?_, n + 1, hwa', ?_⟩
  · show (st.next_sequence + 1) % U32 = (st.record_count + 1) % U32
    rw [h1]
  · show (if (st.record_count + 1) % U32 > FLASH_LOG_MAX_RECORDS
        then (if st.write_addr + FLASH_LOG_RECORD_SIZE ≥ FLASH_LOG_DATA_END
          then FLASH_LOG_DATA_START
          else st.write_addr + FLASH_LOG_RECORD_SIZE)
        else st.oldest_addr) < U32
    split
    · rw [hwa, hMAX, hDS, hEND, hU, show FLASH_LOG_RECORD_SIZE = 64 from rfl]
      have := Nat.mod_lt n (show 0 < 32704 by norm_num)
      split <;> omega
    · exact h2
  · show ((st.record_count + 1) % U32) = (n + 1) % U32
    rw [hrc, hU]
    omega

/-- Effect of a (successful) `WriteRecord` on the header region
(`[0, DATA_START)`): untouched when the periodic commit is skipped;
otherwise only the ping-pong slot changes, receiving the serialized
header of the advanced state. -/
theorem writeRecord_headerMem (st : FState) (d : Dev) (s : Sensor) (ts : Nat)
    (hinit : st.initialized = true) (hP : PerfectDev d)
    (hlo : FLASH_LOG_DATA_START ≤ st.write_addr)
    (hhi : st.write_addr + 64 ≤ FLASH_LOG_DATA_END) :
    ((advanceState (bumpSeq st)).record_count % HEADER_UPDATE_INTERVAL ≠ 0 ∧
     ∀ a, a < FLASH_LOG_DATA_START →
       (FlashLog_WriteRecord st d s ts).2.2.1.mem a = d.mem a) ∨
    ((advanceState (bumpSeq st)).record_count % HEADER_UPDATE_INTERVAL = 0 ∧
     (∀ a, a < FLASH_LOG_DATA_START →
        ¬ (pingSlotAddr (toggleActive st.active_header) ≤ a ∧
           a < pingSlotAddr (toggleActive st.active_header) + 44) →
        (FlashLog_WriteRecord st d s ts).2.2.1.mem a = d.mem a) ∧
     (∀ i, i < 44 →
        (FlashLog_WriteRecord st d s ts).2.2.1.mem
            (pingSlotAddr (toggleActive st.active_header) + i) =
          (serializeHeader (mkHeader (advanceState (bumpSeq st)))).getD i 0)) := by
  obtain ⟨hr, hw, he⟩ := hP
  have hhi' : st.write_addr + 64 ≤ 2097152 := by
    simpa [FLASH_LOG_DATA_END, W25Q_FLASH_SIZE] using hhi
  have hlo' : 4096 ≤ st.write_addr := by
    simpa [FLASH_LOG_DATA_START, W25Q_SECTOR_SIZE] using hlo
  have hlen := serializeBuildRecord_length s st.next_sequence ts
  have hif : ¬ (¬ st.initialized = true) := by rw [hinit]; simp
  have hwaSize : st.write_addr < W25Q_FLASH_SIZE := by
    show st.write_addr < 2097152
    omega
  have hWok : ∀ d1 : Dev, d1.writeFails = d.writeFails →
      W25Q_Write d1 st.write_addr
        (serializeRecord (buildRecord s st.next_sequence ts)) =
      (.ok, { d1 with
        mem := (writeBytesMem d1.mem st.write_addr
          (serializeRecord (buildRecord s st.next_sequence ts))) }) := by
    intro d1 h1
    exact W25Q_Write_ok d1 _ _ (by rw [hlen]; omega)
      (by rw [hlen]; show st.write_addr + 64 ≤ 2097152; omega)
      (by rw [hlen, h1, hw])
  have hsl : pingSlotAddr (toggleActive
      (advanceState (bumpSeq st)).active_header) =
      pingSlotAddr (toggleActive st.active_header) := rfl
  have hslB : pingSlotAddr (toggleActive st.active_header) + 44 ≤ 300 := by
    unfold pingSlotAddr HEADER_A_ADDR HEADER_B_ADDR
    split <;> omega
  have main : ∀ mem1 : Nat → Nat,
      FlashLog_EraseSectorIfNeeded d st.write_addr =
        (.ok, { d with mem := mem1 },
          if st.write_addr % W25Q_SECTOR_SIZE = 0 then [.erase st.write_addr]
          else []) →
      (∀ a, a < FLASH_LOG_DATA_START → mem1 a = d.mem a) →
      ((advanceState (bumpSeq st)).record_count % HEADER_UPDATE_INTERVAL ≠ 0 ∧
       ∀ a, a < FLASH_LOG_DATA_START →
         (FlashLog_WriteRecord st d s ts).2.2.1.mem a = d.mem a) ∨
      ((advanceState (bumpSeq st)).record_count % HEADER_UPDATE_INTERVAL = 0 ∧
       (∀ a, a < FLASH_LOG_DATA_START →
          ¬ (pingSlotAddr (toggleActive st.active_header) ≤ a ∧
             a < pingSlotAddr (toggleActive st.active_header) + 44) →
          (FlashLog_WriteRecord st d s ts).2.2.1.mem a = d.mem a) ∧
       (∀ i, i < 44 →
          (FlashLog_WriteRecord st d s ts).2.2.1.mem
              (pingSlotAddr (toggleActive st.active_header) + i) =
            (serializeHeader (mkHeader (advanceState (bumpSeq st)))).getD i 0)) := by
    intro mem1 hE hmem1
    unfold FlashLog_WriteRecord
    rw [if_neg hif, hE]
    dsimp only
    rw [hWok { d with mem := mem1 } rfl]
    dsimp only
    by_cases hhdr :
        (advanceState (bumpSeq st)).record_count % HEADER_UPDATE_INTERVAL = 0
    · rw [if_pos hhdr,
        FlashLog_WriteHeader_ok (advanceState (bumpSeq st)) _ (by rw [hw])]
      refine Or.inr ⟨hhdr, ?_, ?_⟩
      · intro a ha hslot
        show writeBytesMem
            (writeBytesMem mem1 st.write_addr
              (serializeRecord (buildRecord s st.next_sequence ts)))
            (pingSlotAddr (toggleActive
              (advanceState (bumpSeq st)).active_header))
            (serializeHeader (mkHeader (advanceState (bumpSeq st)))) a = _
        rw [hsl]
        have ha' : a < 4096 := by
          simpa [FLASH_LOG_DATA_START, W25Q_SECTOR_SIZE] using ha
        rw [writeBytesMem_frame _ _ _ _ (by rw [serializeHeader_length]; omega)]
        rw [writeBytesMem_frame _ _ _ _ (by rw [hlen]; omega)]
        exact hmem1 a ha
      · intro i hi
        show writeBytesMem
            (writeBytesMem mem1 st.write_addr
              (serializeRecord (buildRecord s st.next_sequence ts)))
            (pingSlotAddr (toggleActive
              (advanceState (bumpSeq st)).active_header))
            (serializeHeader (mkHeader (advanceState (bumpSeq st))))
            (pingSlotAddr (toggleActive st.active_header) + i) = _
        rw [hsl]
        rw [writeBytesMem_get _ _ _ i (by rw [serializeHeader_length]; omega)]
    · rw [if_neg hhdr]
      refine Or.inl ⟨hhdr, ?_⟩
      intro a ha
      show writeBytesMem mem1 st.write_addr
          (serializeRecord (buildRecord s st.next_sequence ts)) a = _
      have ha' : a < 4096 := by
        simpa [FLASH_LOG_DATA_START, W25Q_SECTOR_SIZE] using ha
      rw [writeBytesMem_frame _ _ _ _ (by rw [hlen]; omega)]
      exact hmem1 a ha
  by_cases halign : st.write_addr % W25Q_SECTOR_SIZE = 0
  · refine main (eraseSectorMem d.mem st.write_addr) ?_ ?_
    · rw [eraseIfNeeded_ok d st.write_addr halign hwaSize (by rw [he]),
        if_pos halign]
    · intro a ha
      have ha' : a < 4096 := by
        simpa [FLASH_LOG_DATA_START, W25Q_SECTOR_SIZE] using ha
      rw [eraseSectorMem_out _ _ _ (by omega)]
  · refine main d.mem ?_ ?_
    · rw [eraseIfNeeded_skip d st.write_addr halign, if_neg halign]
    · intro a _
      rfl

theorem eraseSectors_succ (d : Dev) (k sector : Nat) :
    eraseSectors d (k + 1) sector =
      match W25Q_EraseSector d (sector * W25Q_SECTOR_SIZE) with
      | (.ok, d') => eraseSectors d' k (sector + 1)
      | (s, d') => (s, d') := rfl

/-- On a device whose erases never fail, the `EraseAll` sector loop
succeeds, leaves the failure oracles alone, and turns the covered range
into `0xFF`. -/
theorem eraseSectors_perfect (k : Nat) :
    ∀ (d : Dev) (start : Nat), start + k ≤ W25Q_SECTOR_COUNT →
      d.eraseFails = (fun _ => false) →
      (eraseSectors d k start).1 = .ok ∧
      (eraseSectors d k start).2.readFails = d.readFails ∧
      (eraseSectors d k start).2.writeFails = d.writeFails ∧
      (eraseSectors d k start).2.eraseFails = d.eraseFails ∧
      ∀ a, (eraseSectors d k start).2.mem a =
        if start * W25Q_SECTOR_SIZE ≤ a ∧
            a < (start + k) * W25Q_SECTOR_SIZE then 255
        else d.mem a := by
  induction k with
  | zero =>
    intro d start h hE
    refine ⟨rfl, rfl, rfl, rfl, ?_⟩
    intro a
    rw [if_neg (fun hc => absurd hc.1 (not_le.mpr hc.2))]
    rfl
  | succ k ih =>
    intro d start h hE
    have hSS : W25Q_SECTOR_SIZE = 4096 := by norm_num [W25Q_SECTOR_SIZE]
    have hSC : W25Q_SECTOR_COUNT = 512 := by
      norm_num [W25Q_SECTOR_COUNT, W25Q_FLASH_SIZE, W25Q_SECTOR_SIZE]
    have hFS : W25Q_FLASH_SIZE = 2097152 := by norm_num [W25Q_FLASH_SIZE]
    rw [hSC] at h
    have hsec : start * W25Q_SECTOR_SIZE / W25Q_SECTOR_SIZE *
        W25Q_SECTOR_SIZE = start * W25Q_SECTOR_SIZE := by
      rw [hSS]
      omega
    rw [eraseSectors_succ]
    rw [W25Q_EraseSector_ok d (start * W25Q_SECTOR_SIZE)
      (by rw [hSS, hFS]; omega) (by rw [hE])]
    rw [hsec]
    dsimp only
    obtain ⟨e1, e2, e3, e4, e5⟩ := ih
      { d with mem := eraseSectorMem d.mem (start * W25Q_SECTOR_SIZE) }
      (start + 1) (by rw [hSC]; omega) hE
    refine ⟨e1, e2, e3, e4, ?_⟩
    intro a
    rw [e5 a]
    show (if (start + 1) * W25Q_SECTOR_SIZE ≤ a ∧
        a < (start + 1 + k) * W25Q_SECTOR_SIZE then 255
      else eraseSectorMem d.mem (start * W25Q_SECTOR_SIZE) a) =
      (if start * W25Q_SECTOR_SIZE ≤ a ∧
        a < (start + (k + 1)) * W25Q_SECTOR_SIZE then 255 else d.mem a)
    unfold eraseSectorMem
    rw [hSS]
    split_ifs <;> first | rfl | omega

/-- A `FlashLog_EraseAll` on an initialized handle over a reliable
device: it succeeds, resets the cached state (toggling the active slot
to B), blanks slot A, and commits the reset header to slot B. -/
theorem eraseAll_step (st : FState) (d : Dev) (hinit : st.initialized = true)
    (hP : PerfectDev d) :
    (FlashLog_EraseAll st d).1 = .ok ∧
    (FlashLog_EraseAll st d).2.1 =
      { st with write_addr := FLASH_LOG_DATA_START, record_count := 0
                oldest_addr := FLASH_LOG_DATA_START, next_sequence := 0
                active_header := 1 } ∧
    PerfectDev (FlashLog_EraseAll st d).2.2 ∧
    (∀ i, i < 44 →
      (FlashLog_EraseAll st d).2.2.mem (HEADER_A_ADDR + i) = 255) ∧
    (∀ i, i < 44 →
      (FlashLog_EraseAll st d).2.2.mem (HEADER_B_ADDR + i) =
        (serializeHeader (mkHeader
          { st with write_addr := FLASH_LOG_DATA_START, record_count := 0
                    oldest_addr := FLASH_LOG_DATA_START, next_sequence := 0
                    active_header := 0 })).getD i 0) := by
  obtain ⟨hr, hw, he⟩ := hP
  have hHA : HEADER_A_ADDR = 0 := by norm_num [HEADER_A_ADDR]
  have hHB : HEADER_B_ADDR = 256 := by norm_num [HEADER_B_ADDR]
  have hSS : W25Q_SECTOR_SIZE = 4096 := by norm_num [W25Q_SECTOR_SIZE]
  have hSC : W25Q_SECTOR_COUNT = 512 := by
    norm_num [W25Q_SECTOR_COUNT, W25Q_FLASH_SIZE, W25Q_SECTOR_SIZE]
  unfold FlashLog_EraseAll
  rw [if_neg (by rw [hinit]; simp)]
  obtain ⟨e1, e2, e3, e4, e5⟩ := eraseSectors_perfect W25Q_SECTOR_COUNT d 0
    (by omega) he
  have hXX : eraseSectors d W25Q_SECTOR_COUNT 0 =
      (.ok, (eraseSectors d W25Q_SECTOR_COUNT 0).2) := by rw [← e1]
  rw [hXX]
  dsimp only
  rw [FlashLog_WriteHeader_ok _ _ (by rw [e3, hw])]
  dsimp only
  have hslB : pingSlotAddr (toggleActive
      ({ st with write_addr := FLASH_LOG_DATA_START, record_count := 0
                 oldest_addr := FLASH_LOG_DATA_START, next_sequence := 0
                 active_header := 0 } : FState).active_header) =
      HEADER_B_ADDR := rfl
  refine ⟨rfl, rfl, ⟨?_, ?_, ?_⟩, ?_, ?_⟩
  · exact e2.trans hr
  · exact e3.trans hw
  · exact e4.trans he
  · intro i hi
    show writeBytesMem (eraseSectors d W25Q_SECTOR_COUNT 0).2.mem
        (pingSlotAddr (toggleActive
          ({ st with write_addr := FLASH_LOG_DATA_START, record_count := 0
                     oldest_addr := FLASH_LOG_DATA_START, next_sequence := 0
                     active_header := 0 } : FState).active_header))
        (serializeHeader (mkHeader
          { st with write_addr := FLASH_LOG_DATA_START, record_count := 0
                    oldest_addr := FLASH_LOG_DATA_START, next_sequence := 0
                    active_header := 0 }))
        (HEADER_A_ADDR + i) = 255
    rw [hslB]
    rw [writeBytesMem_frame _ _ _ _ (Or.inl (by rw [hHA, hHB]; omega))]
    rw [e5 (HEADER_A_ADDR + i)]
    rw [if_pos ⟨by omega, by rw [hHA, hSC, hSS]; omega⟩]
  · intro i hi
    show writeBytesMem (eraseSectors d W25Q_SECTOR_COUNT 0).2.mem
        (pingSlotAddr (toggleActive
          ({ st with write_addr := FLASH_LOG_DATA_START, record_count := 0
                     oldest_addr := FLASH_LOG_DATA_START, next_sequence := 0
                     active_header := 0 } : FState).active_header))
        (serializeHeader (mkHeader
          { st with write_addr := FLASH_LOG_DATA_START, record_count := 0
                    oldest_addr := FLASH_LOG_DATA_START, next_sequence := 0
                    active_header := 0 }))
        (HEADER_B_ADDR + i) =
      (serializeHeader (mkHeader
        { st with write_addr := FLASH_LOG_DATA_START, record_count := 0
                  oldest_addr := FLASH_LOG_DATA_START, next_sequence := 0
                  active_header := 0 })).getD i 0
    rw [hslB]
    rw [writeBytesMem_get _ _ _ i (by rw [serializeHeader_length]; omega)]

/-- A `FlashLog_Init` over a reliable device whose header slots are
erased or engine-written: it succeeds, yields an initialized,
counter-consistent state, and leaves the slots erased or
engine-written. -/
theorem init_step (d : Dev) (hP : PerfectDev d)
    (hA : SlotOK d HEADER_A_ADDR) (hB : SlotOK d HEADER_B_ADDR) :
    (FlashLog_Init d).1 = .ok ∧
    (FlashLog_Init d).2.1.initialized = true ∧
    CounterOK (FlashLog_Init d).2.1 ∧
    PerfectDev (FlashLog_Init d).2.2 ∧
    SlotOK (FlashLog_Init d).2.2 HEADER_A_ADDR ∧
    SlotOK (FlashLog_Init d).2.2 HEADER_B_ADDR := by
  obtain ⟨hr, hw, he⟩ := hP
  have hHA : HEADER_A_ADDR = 0 := by norm_num [HEADER_A_ADDR]
  have hHB : HEADER_B_ADDR = 256 := by norm_num [HEADER_B_ADDR]
  have hFS : W25Q_FLASH_SIZE = 2097152 := by norm_num [W25Q_FLASH_SIZE]
  have hSS : W25Q_SECTOR_SIZE = 4096 := by norm_num [W25Q_SECTOR_SIZE]
  have hCfresh : CounterOK freshState := by
    refine ⟨rfl, ?_, 0, ?_, ?_⟩
    · show FLASH_LOG_DATA_START < U32
      norm_num [FLASH_LOG_DATA_START, W25Q_SECTOR_SIZE, U32]
    · show FLASH_LOG_DATA_START =
        FLASH_LOG_DATA_START + 0 % FLASH_LOG_MAX_RECORDS * 64
      simp
    · show (0 : Nat) = 0 % U32
      simp
  have bytesBlank : ∀ addr, (∀ i, i < 44 → d.mem (addr + i) = 255) →
      devReadBytes d addr 44 = List.replicate 44 255 := by
    intro addr h
    apply devReadBytes_eq
    · simp
    · intro x hx
      rw [List.eq_of_mem_replicate hx]
      norm_num
    · intro i hi
      rw [h i hi, List.getD_eq_getElem _ _ (by simpa using hi),
        List.getElem_replicate]
  have bytesHdr : ∀ addr (stX : FState),
      (∀ i, i < 44 →
        d.mem (addr + i) = (serializeHeader (mkHeader stX)).getD i 0) →
      devReadBytes d addr 44 = serializeHeader (mkHeader stX) := by
    intro addr stX h
    apply devReadBytes_eq
    · exact serializeHeader_length _
    · exact serializeHeader_bytes_lt _
    · exact h
  unfold FlashLog_Init
  rw [W25Q_Read_ok d HEADER_A_ADDR 44 (by norm_num)
    (by rw [hHA, hFS]; norm_num) (by rw [hr])]
  dsimp only
  rw [W25Q_Read_ok d HEADER_B_ADDR 44 (by norm_num)
    (by rw [hHB, hFS]; norm_num) (by rw [hr])]
  dsimp only
  rcases hA with hA | ⟨stA, hCA, hA⟩
  · rcases hB with hB | ⟨stB, hCB, hB⟩
    · -- both slots erased: the fresh path
      rw [bytesBlank _ hA, bytesBlank _ hB, blankHeader_invalid]
      rw [if_neg (by simp), if_neg (by simp), if_neg (by simp)]
      rw [W25Q_EraseSector_ok d 0 (by rw [hFS]; norm_num) (by rw [he])]
      dsimp only
      rw [show (0 : Nat) / W25Q_SECTOR_SIZE * W25Q_SECTOR_SIZE = 0 from
        by rw [hSS]]
      rw [FlashLog_WriteHeader_ok freshState _ (by rw [hw])]
      dsimp only
      have hslF : pingSlotAddr (toggleActive freshState.active_header) =
          HEADER_B_ADDR := rfl
      refine ⟨rfl, rfl, ⟨rfl, hCfresh.2.1, 0, ?_, ?_⟩,
        ⟨hr, hw, he⟩, ?_, ?_⟩
      · show FLASH_LOG_DATA_START =
          FLASH_LOG_DATA_START + 0 % FLASH_LOG_MAX_RECORDS * 64
        simp
      · show (0 : Nat) = 0 % U32
        simp
      · refine Or.inl ?_
        intro i hi
        show writeBytesMem (eraseSectorMem d.mem 0)
            (pingSlotAddr (toggleActive freshState.active_header))
            (serializeHeader (mkHeader freshState)) (HEADER_A_ADDR + i) = 255
        rw [hslF]
        rw [writeBytesMem_frame _ _ _ _ (Or.inl (by rw [hHA, hHB]; omega))]
        rw [eraseSectorMem_in _ _ _ ⟨by omega, by rw [hHA, hSS]; omega⟩]
      · refine Or.inr ⟨freshState, hCfresh, ?_⟩
        intro i hi
        show writeBytesMem (eraseSectorMem d.mem 0)
            (pingSlotAddr (toggleActive freshState.active_header))
            (serializeHeader (mkHeader freshState)) (HEADER_B_ADDR + i) =
          (serializeHeader (mkHeader freshState)).getD i 0
        rw [hslF]
        rw [writeBytesMem_get _ _ _ i (by rw [serializeHeader_length]; omega)]
    · -- slot A erased, slot B holds a header: adopt B
      rw [bytesBlank _ hA, bytesHdr _ stB hB,
        deserialize_serializeHeader _ (mkHeader_WF stB hCB),
        mkHeader_valid, blankHeader_invalid]
      rw [if_neg (by simp), if_neg (by simp), if_pos rfl]
      obtain ⟨c1, c2, n, cwa, crc⟩ := hCB
      exact ⟨rfl, rfl, ⟨rfl, c2, n, cwa, crc⟩, ⟨hr, hw, he⟩,
        Or.inl hA, Or.inr ⟨stB, ⟨c1, c2, n, cwa, crc⟩, hB⟩⟩
  · rcases hB with hB | ⟨stB, hCB, hB⟩
    · -- slot A holds a header, slot B erased: adopt A
      rw [bytesHdr _ stA hA, bytesBlank _ hB,
        deserialize_serializeHeader _ (mkHeader_WF stA hCA),
        mkHeader_valid, blankHeader_invalid]
      rw [if_neg (by simp), if_pos rfl]
      obtain ⟨c1, c2, n, cwa, crc⟩ := hCA
      exact ⟨rfl, rfl, ⟨rfl, c2, n, cwa, crc⟩, ⟨hr, hw, he⟩,
        Or.inr ⟨stA, ⟨c1, c2, n, cwa, crc⟩, hA⟩, Or.inl hB⟩
    · -- both slots hold headers: arbitration
      rw [bytesHdr _ stA hA, bytesHdr _ stB hB,
        deserialize_serializeHeader _ (mkHeader_WF stA hCA),
        deserialize_serializeHeader _ (mkHeader_WF stB hCB),
        mkHeader_valid, mkHeader_valid]
      rw [if_pos rfl]
      by_cases hcmp : (mkHeader stA).sequence > (mkHeader stB).sequence
      · rw [if_pos hcmp]
        obtain ⟨c1, c2, n, cwa, crc⟩ := hCA
        exact ⟨rfl, rfl, ⟨rfl, c2, n, cwa, crc⟩, ⟨hr, hw, he⟩,
          Or.inr ⟨stA, ⟨c1, c2, n, cwa, crc⟩, hA⟩,
          Or.inr ⟨stB, hCB, hB⟩⟩
      · rw [if_neg hcmp]
        obtain ⟨c1, c2, n, cwa, crc⟩ := hCB
        exact ⟨rfl, rfl, ⟨rfl, c2, n, cwa, crc⟩, ⟨hr, hw, he⟩,
          Or.inr ⟨stA, hCA, hA⟩,
          Or.inr ⟨stB, ⟨c1, c2, n, cwa, crc⟩, hB⟩⟩

/-- Every successful engine operation preserves the system invariant. -/
theorem step_preserves (sys sys' : FState × Dev) (h : Step sys sys')
    (hI : SysInv sys) : SysInv sys' := by
  obtain ⟨hinit, hP, hC, hA, hB⟩ := hI
  have hHA : HEADER_A_ADDR = 0 := by norm_num [HEADER_A_ADDR]
  have hHB : HEADER_B_ADDR = 256 := by norm_num [HEADER_B_ADDR]
  have hDS : FLASH_LOG_DATA_START = 4096 := by
    norm_num [FLASH_LOG_DATA_START, W25Q_SECTOR_SIZE]
  have hEND : FLASH_LOG_DATA_END = 2097152 := by
    norm_num [FLASH_LOG_DATA_END, W25Q_FLASH_SIZE]
  have hMAX : FLASH_LOG_MAX_RECORDS = 32704 := by
    norm_num [FLASH_LOG_MAX_RECORDS, FLASH_LOG_DATA_START, FLASH_LOG_DATA_END,
      FLASH_LOG_RECORD_SIZE, W25Q_SECTOR_SIZE, W25Q_FLASH_SIZE]
  cases h with
  | write s ts hok =>
    obtain ⟨hns, hold, n, hwa, hrc⟩ := hC
    have hlo : FLASH_LOG_DATA_START ≤ sys.1.write_addr := by
      rw [hwa]
      omega
    have hhi : sys.1.write_addr + 64 ≤ FLASH_LOG_DATA_END := by
      rw [hwa, hDS, hEND, hMAX]
      have := Nat.mod_lt n (show 0 < 32704 by norm_num)
      omega
    obtain ⟨-, hstate, hP', -, -⟩ :=
      writeRecord_step sys.1 sys.2 s ts hinit hP hlo hhi
    have hC' : CounterOK (advanceState (bumpSeq sys.1)) :=
      counterOK_advance sys.1 ⟨hns, hold, n, hwa, hrc⟩
    have hmem := writeRecord_headerMem sys.1 sys.2 s ts hinit hP hlo hhi
    have hslot44 : pingSlotAddr (toggleActive sys.1.active_header) =
        HEADER_A_ADDR ∨
        pingSlotAddr (toggleActive sys.1.active_header) = HEADER_B_ADDR := by
      unfold pingSlotAddr
      split
      · exact Or.inl rfl
      · exact Or.inr rfl
    have pres : ∀ addr, addr = HEADER_A_ADDR ∨ addr = HEADER_B_ADDR →
        (∀ a, a < FLASH_LOG_DATA_START →
          (FlashLog_WriteRecord sys.1 sys.2 s ts).2.2.1.mem a = sys.2.mem a) →
        SlotOK sys.2 addr →
        SlotOK (FlashLog_WriteRecord sys.1 sys.2 s ts).2.2.1 addr := by
      intro addr haddr hfr hS
      have hbound : addr + 44 ≤ FLASH_LOG_DATA_START := by
        rcases haddr with h | h <;> subst h <;> omega
      rcases hS with hS | ⟨stX, hCX, hbytes⟩
      · refine Or.inl ?_
        intro i hi
        rw [hfr (addr + i) (by omega)]
        exact hS i hi
      · refine Or.inr ⟨stX, hCX, ?_⟩
        intro i hi
        rw [hfr (addr + i) (by omega)]
        exact hbytes i hi
    have hslots :
        SlotOK (FlashLog_WriteRecord sys.1 sys.2 s ts).2.2.1 HEADER_A_ADDR ∧
        SlotOK (FlashLog_WriteRecord sys.1 sys.2 s ts).2.2.1 HEADER_B_ADDR := by
      rcases hmem with ⟨-, hfr⟩ | ⟨-, hfr, hget⟩
      · exact ⟨pres HEADER_A_ADDR (Or.inl rfl) hfr hA,
          pres HEADER_B_ADDR (Or.inr rfl) hfr hB⟩
      · rcases hslot44 with hsl | hsl
        · constructor
          · refine Or.inr ⟨advanceState (bumpSeq sys.1), hC', ?_⟩
            intro i hi
            have hg := hget i hi
            rw [hsl] at hg
            exact hg
          · rcases hB with hS | ⟨stX, hCX, hbytes⟩
            · refine Or.inl ?_
              intro i hi
              rw [hfr (HEADER_B_ADDR + i) (by omega) (by rw [hsl]; omega)]
              exact hS i hi
            · refine Or.inr ⟨stX, hCX, ?_⟩
              intro i hi
              rw [hfr (HEADER_B_ADDR + i) (by omega) (by rw [hsl]; omega)]
              exact hbytes i hi
        · constructor
          · rcases hA with hS | ⟨stX, hCX, hbytes⟩
            · refine Or.inl ?_
              intro i hi
              rw [hfr (HEADER_A_ADDR + i) (by omega) (by rw [hsl]; omega)]
              exact hS i hi
            · refine Or.inr ⟨stX, hCX, ?_⟩
              intro i hi
              rw [hfr (HEADER_A_ADDR + i) (by omega) (by rw [hsl]; omega)]
              exact hbytes i hi
          · refine Or.inr ⟨advanceState (bumpSeq sys.1), hC', ?_⟩
            intro i hi
            have hg := hget i hi
            rw [hsl] at hg
            exact hg
    unfold SysInv
    dsimp only
    refine ⟨?_, hP', ?_, hslots.1, hslots.2⟩
    · rcases hstate with h' | h' <;> rw [h'] <;> exact hinit
    · rcases hstate with h' | h'
      · rw [h']
        exact hC'
      · rw [h']
        obtain ⟨a1, a2, m, b1, b2⟩ := hC'
        exact ⟨a1, a2, m, b1, b2⟩
  | eraseAll hok =>
    obtain ⟨e1, e2, e3, e4, e5⟩ := eraseAll_step sys.1 sys.2 hinit hP
    unfold SysInv
    dsimp only
    refine ⟨?_, e3, ?_, Or.inl e4, Or.inr
      ⟨{ sys.1 with write_addr := FLASH_LOG_DATA_START, record_count := 0
                    oldest_addr := FLASH_LOG_DATA_START, next_sequence := 0
                    active_header := 0 }, ?_, e5⟩⟩
    · rw [e2]
      exact hinit
    · rw [e2]
      refine ⟨rfl, ?_, 0, ?_, ?_⟩
      · show FLASH_LOG_DATA_START < U32
        norm_num [FLASH_LOG_DATA_START, W25Q_SECTOR_SIZE, U32]
      · show FLASH_LOG_DATA_START =
          FLASH_LOG_DATA_START + 0 % FLASH_LOG_MAX_RECORDS * 64
        simp
      · show (0 : Nat) = 0 % U32
        simp
    · refine ⟨rfl, ?_, 0, ?_, ?_⟩
      · show FLASH_LOG_DATA_START < U32
        norm_num [FLASH_LOG_DATA_START, W25Q_SECTOR_SIZE, U32]
      · show FLASH_LOG_DATA_START =
          FLASH_LOG_DATA_START + 0 % FLASH_LOG_MAX_RECORDS * 64
        simp
      · show (0 : Nat) = 0 % U32
        simp
  | init hok =>
    obtain ⟨i1, i2, i3, i4, i5, i6⟩ := init_step sys.2 hP hA hB
    exact ⟨i2, i4, i3, i5, i6⟩

theorem sysInv_start : SysInv (c5Start, mkDev blankMem) := by
  unfold SysInv
  refine ⟨rfl, ⟨rfl, rfl, rfl⟩, ⟨rfl, ?_, 0, ?_, ?_⟩,
    Or.inl fun i _ => rfl, Or.inl fun i _ => rfl⟩
  · show FLASH_LOG_DATA_START < U32
    norm_num [FLASH_LOG_DATA_START, W25Q_SECTOR_SIZE, U32]
  · show FLASH_LOG_DATA_START =
      FLASH_LOG_DATA_START + 0 % FLASH_LOG_MAX_RECORDS * 64
    simp
  · show (0 : Nat) = 0 % U32
    simp

/-- C10 (amended): from any configuration satisfying the system
invariant — in particular the fresh empty state over a blank reliable
device — every configuration reachable by successful `WriteRecord`,
`EraseAll` and `Init` operations keeps
`next_sequence = record_count`, and its cursor sits at
`DATA_START + (n mod MAX_RECORDS) * 64` for some write count `n` —
hence `write_addr` stays 64-byte aligned within
`[DATA_START, DATA_END)`.  The claim's literal equation
`write_addr = DATA_START + (record_count mod MAX_RECORDS) * 64` is
however not invariant: `record_count` wraps modulo `2^32` while the
cursor wraps modulo `MAX_RECORDS` writes, and
`2^32 mod 32704 = 16384` (see the counterexample). -/
theorem claim_C10 (sys0 sys : FState × Dev) (h0 : SysInv sys0)
    (h : Reach sys0 sys) :
    sys.1.next_sequence = sys.1.record_count ∧
    (∃ n, sys.1.write_addr =
      FLASH_LOG_DATA_START + n % FLASH_LOG_MAX_RECORDS * 64) ∧
    sys.1.write_addr % 64 = 0 ∧
    FLASH_LOG_DATA_START ≤ sys.1.write_addr ∧
    sys.1.write_addr < FLASH_LOG_DATA_END := by
  have hMAX : FLASH_LOG_MAX_RECORDS = 32704 := by
    norm_num [FLASH_LOG_MAX_RECORDS, FLASH_LOG_DATA_START, FLASH_LOG_DATA_END,
      FLASH_LOG_RECORD_SIZE, W25Q_SECTOR_SIZE, W25Q_FLASH_SIZE]
  have hDS : FLASH_LOG_DATA_START = 4096 := by
    norm_num [FLASH_LOG_DATA_START, W25Q_SECTOR_SIZE]
  have hEND : FLASH_LOG_DATA_END = 2097152 := by
    norm_num [FLASH_LOG_DATA_END, W25Q_FLASH_SIZE]
  have hinv : SysInv sys := by
    unfold Reach at h
    induction h with
    | refl => exact h0
    | tail h1 h2 ih => exact step_preserves _ _ h2 ih
  obtain ⟨-, -, ⟨hns, -, n, hwa, -⟩, -, -⟩ := hinv
  refine ⟨hns, ⟨n, hwa⟩, ?_, ?_, ?_⟩
  · rw [hwa, hDS]
    omega
  · rw [hwa]
    omega
  · rw [hwa, hDS, hEND, hMAX]
    have := Nat.mod_lt n (show 0 < 32704 by norm_num)
    omega

theorem claim_C10_witness :
    (SysInv (c5Start, mkDev blankMem) ∧
     Reach (c5Start, mkDev blankMem) (c5Start, mkDev blankMem)) ∧
    ((c5Start, mkDev blankMem).1.next_sequence =
        (c5Start, mkDev blankMem).1.record_count ∧
     (∃ n, (c5Start, mkDev blankMem).1.write_addr =
        FLASH_LOG_DATA_START + n % FLASH_LOG_MAX_RECORDS * 64) ∧
     (c5Start, mkDev blankMem).1.write_addr % 64 = 0 ∧
     FLASH_LOG_DATA_START ≤ (c5Start, mkDev blankMem).1.write_addr ∧
     (c5Start, mkDev blankMem).1.write_addr < FLASH_LOG_DATA_END) :=
  ⟨⟨sysInv_start, Relation.ReflTransGen.refl⟩,
   claim_C10 (c5Start, mkDev blankMem) (c5Start, mkDev blankMem)
     sysInv_start Relation.ReflTransGen.refl⟩

/-- Counters and reachability along a run of writes from a fresh,
initialized state on a reliable device: every call succeeds,
`record_count` and `next_sequence` wrap modulo `2^32` while the cursor
wraps modulo `MAX_RECORDS` writes, and every prefix of the run is
reachable by successful operations. -/
theorem writeRunCnt (s : Sensor) (ts : Nat → Nat) (sys0 : FState × Dev)
    (hinit : sys0.1.initialized = true)
    (hwa0 : sys0.1.write_addr = FLASH_LOG_DATA_START)
    (hc0 : sys0.1.record_count = 0) (hs0 : sys0.1.next_sequence = 0)
    (hP : PerfectDev sys0.2) :
    ∀ n, (runWrites s ts n sys0).1.initialized = true ∧
      (runWrites s ts n sys0).1.write_addr =
        FLASH_LOG_DATA_START + n % FLASH_LOG_MAX_RECORDS * 64 ∧
      (runWrites s ts n sys0).1.record_count = n % U32 ∧
      (runWrites s ts n sys0).1.next_sequence = n % U32 ∧
      PerfectDev (runWrites s ts n sys0).2 ∧
      Reach sys0 (runWrites s ts n sys0) := by
  have hMAX : FLASH_LOG_MAX_RECORDS = 32704 := by
    norm_num [FLASH_LOG_MAX_RECORDS, FLASH_LOG_DATA_START, FLASH_LOG_DATA_END,
      FLASH_LOG_RECORD_SIZE, W25Q_SECTOR_SIZE, W25Q_FLASH_SIZE]
  have hDS : FLASH_LOG_DATA_START = 4096 := by
    norm_num [FLASH_LOG_DATA_START, W25Q_SECTOR_SIZE]
  have hEND : FLASH_LOG_DATA_END = 2097152 := by
    norm_num [FLASH_LOG_DATA_END, W25Q_FLASH_SIZE]
  have hU : U32 = 4294967296 := by norm_num [U32]
  intro n
  induction n with
  | zero =>
    refine ⟨hinit, ?_, ?_, ?_, hP, Relation.ReflTransGen.refl⟩
    · show sys0.1.write_addr =
        FLASH_LOG_DATA_START + 0 % FLASH_LOG_MAX_RECORDS * 64
      rw [hwa0]
      simp
    · show sys0.1.record_count = 0 % U32
      rw [hc0]
      simp
    · show sys0.1.next_sequence = 0 % U32
      rw [hs0]
      simp
  | succ n ih =>
    obtain ⟨I1, I2, I3, I4, I5, I6⟩ := ih
    have hlo : FLASH_LOG_DATA_START ≤ (runWrites s ts n sys0).1.write_addr := by
      rw [I2]
      omega
    have hhi : (runWrites s ts n sys0).1.write_addr + 64 ≤
        FLASH_LOG_DATA_END := by
      rw [I2, hDS, hEND, hMAX]
      have := Nat.mod_lt n (show 0 < 32704 by norm_num)
      omega
    obtain ⟨hok, hstate, hP', -, -⟩ :=
      writeRecord_step (runWrites s ts n sys0).1 (runWrites s ts n sys0).2
        s (ts n) I1 I5 hlo hhi
    have hwa' : (advanceState (bumpSeq (runWrites s ts n sys0).1)).write_addr =
        FLASH_LOG_DATA_START + (n + 1) % FLASH_LOG_MAX_RECORDS * 64 := by
      show (if (runWrites s ts n sys0).1.write_addr + FLASH_LOG_RECORD_SIZE ≥
          FLASH_LOG_DATA_END then FLASH_LOG_DATA_START
        else (runWrites s ts n sys0).1.write_addr + FLASH_LOG_RECORD_SIZE) =
        FLASH_LOG_DATA_START + (n + 1) % FLASH_LOG_MAX_RECORDS * 64
      rw [I2, hMAX, hDS, hEND, show FLASH_LOG_RECORD_SIZE = 64 from rfl]
      have := Nat.mod_lt n (show 0 < 32704 by norm_num)
      split <;> omega
    have hcount' :
        (advanceState (bumpSeq (runWrites s ts n sys0).1)).record_count =
          (n + 1) % U32 := by
      show ((runWrites s ts n sys0).1.record_count + 1) % U32 = (n + 1) % U32
      rw [I3, hU]
      omega
    have hseq' :
        (advanceState (bumpSeq (runWrites s ts n sys0).1)).next_sequence =
          (n + 1) % U32 := by
      show ((runWrites s ts n sys0).1.next_sequence + 1) % U32 = (n + 1) % U32
      rw [I4, hU]
      omega
    have hreach : Reach sys0 (runWrites s ts (n + 1) sys0) := by
      rw [runWrites_succ]
      exact Relation.ReflTransGen.tail I6
        (Step.write (runWrites s ts n sys0) s (ts n) hok)
    refine ⟨?_, ?_, ?_, ?_, ?_, hreach⟩
    · rw [runWrites_succ_fst]
      rcases hstate with h' | h' <;> rw [h'] <;> exact I1
    · rw [runWrites_succ_fst]
      rcases hstate with h' | h' <;> rw [h'] <;> exact hwa'
    · rw [runWrites_succ_fst]
      rcases hstate with h' | h' <;> rw [h'] <;> exact hcount'
    · rw [runWrites_succ_fst]
      rcases hstate with h' | h' <;> rw [h'] <;> exact hseq'
    · rw [runWrites_succ_snd]
      exact hP'

/-- C10 counterexample: the configuration after `2^32` successful
writes from the fresh empty state is reachable by successful engine
operations and keeps `next_sequence = record_count`, yet its cursor
sits at `DATA_START + (2^32 mod MAX_RECORDS) * 64` (slot 16384) while
`record_count` has wrapped to `0` — refuting the claimed invariant
`write_addr = DATA_START + (record_count mod MAX_RECORDS) * 64`. -/
theorem claim_C10_counterexample :
    Reach (c5Start, mkDev blankMem)
      (runWrites zeroSensor (fun _ => 0) U32 (c5Start, mkDev blankMem)) ∧
    (runWrites zeroSensor (fun _ => 0) U32
        (c5Start, mkDev blankMem)).1.next_sequence =
      (runWrites zeroSensor (fun _ => 0) U32
        (c5Start, mkDev blankMem)).1.record_count ∧
    (runWrites zeroSensor (fun _ => 0) U32
        (c5Start, mkDev blankMem)).1.write_addr ≠
      FLASH_LOG_DATA_START +
        (runWrites zeroSensor (fun _ => 0) U32
          (c5Start, mkDev blankMem)).1.record_count %
          FLASH_LOG_MAX_RECORDS * 64 := by
  obtain ⟨h1, h2, h3, h4, h5, h6⟩ := writeRunCnt zeroSensor (fun _ => 0)
    (c5Start, mkDev blankMem) rfl rfl rfl rfl ⟨rfl, rfl, rfl⟩ U32
  refine ⟨h6, ?_, ?_⟩
  · rw [h4, h3]
  · rw [h2, h3]
    decide

end Stratosonde
